import Mathlib

/-!
Verification of the `tidy-env` apartment generator and simulator
(crates/core: gen.rs, object.rs, sim.rs, agent.rs, lib.rs).

The development is a shallow embedding of the Rust source.  Machine
integers are modelled as `Nat`/`Int` (cells are `i8`, modelled as `Int`
with the cast-to-`usize` and cast-from-`usize` wraps made explicit where
the source performs them).  Fallible operations return `Except`.

The source seeds `rand::rngs::StdRng` with `StdRng::seed_from_u64(seed)`
separately for every generation phase.  The `rand` crate is a dependency
that is not part of this repository (no Cargo.toml is present, so even the
crate version — and hence the concrete generator `StdRng` aliases — is
unknowable from the source), and the spec's §9 "PRNG contract" only
requires "a 64-bit seeded stream suitable for reproducibility; SplitMix64
or PCG64 are acceptable".  The stream and the `rand` adapter algorithms
(`gen_range`, `shuffle`, `choose`, `choose_multiple`, `gen_bool`) are
therefore modelled from the spec: the core stream is SplitMix64 and the
adapters are the straightforward deterministic reductions documented at
each definition.  Everything downstream of the stream is translated from
gen.rs / sim.rs / object.rs directly.  All randomized definitions are
parameterized over an arbitrary stream state `σ` and step `nxt`, so the
structural theorems below hold for every generator, while concrete
counterexample worlds instantiate `σ := Nat`, `nxt := smNext`.
-/

set_option maxRecDepth 4000

namespace TidyEnv

/-- 2^64, the `u64`/`usize` modulus. -/
def U64 : Nat := 18446744073709551616

/-- Modelled from the spec (§9 PRNG contract): SplitMix64 step.  Stands in
for the `StdRng` stream; `StdRng::seed_from_u64 s` is modelled as the
stream with initial state `s`. -/
def smNext (s : Nat) : Nat × Nat :=
  let s' := (s + 0x9E3779B97F4A7C15) % U64
  let z1 := ((s' ^^^ (s' >>> 30)) * 0xBF58476D1CE4E5B9) % U64
  let z2 := ((z1 ^^^ (z1 >>> 27)) * 0x94D049BB133111EB) % U64
  (z2 ^^^ (z2 >>> 31), s')

section Rand

variable {σ : Type} {α : Type}

/-- Modelled from the spec: `rng.gen_range(lo..=hi)` — one stream draw
reduced into the inclusive range by modulus. -/
def genRange (nxt : σ → Nat × σ) (lo hi : Nat) (s : σ) : Nat × σ :=
  let (n, s') := nxt s
  (lo + n % (hi + 1 - lo), s')

/-- Modelled from the spec: uniform index into `0..len` (one draw). -/
def genIndex (nxt : σ → Nat × σ) (len : Nat) (s : σ) : Nat × σ :=
  let (n, s') := nxt s
  (n % len, s')

/-- Modelled from the spec: `rng.gen_bool(0.5)` — one draw, even ↦ true. -/
def genBool (nxt : σ → Nat × σ) (s : σ) : Bool × σ :=
  let (n, s') := nxt s
  (n % 2 == 0, s')

/-- Swap two positions of a list (identity when either is out of range). -/
def listSwap (l : List α) (i j : Nat) : List α :=
  match l.get? i, l.get? j with
  | some a, some b => (l.set i b).set j a
  | _, _ => l

/-- Fisher–Yates tail: for index `i+1` draw `j ∈ 0..=i+1`, swap, recurse. -/
def shuffleGo (nxt : σ → Nat × σ) : Nat → List α → σ → List α × σ
  | 0, l, s => (l, s)
  | i + 1, l, s =>
    let (n, s') := nxt s
    shuffleGo nxt i (listSwap l (i + 1) (n % (i + 2))) s'

/-- Modelled from the spec: `SliceRandom::shuffle` as Fisher–Yates from the
top index downwards (one draw per index `len-1 … 1`). -/
def shuffle (nxt : σ → Nat × σ) (l : List α) (s : σ) : List α × σ :=
  match l.length with
  | 0 => (l, s)
  | n + 1 => shuffleGo nxt n l s

/-- Reservoir tail for `choose_multiple`: element `i` (0-based over the
whole sequence) replaces slot `n % (i+1)` when that is `< k`. -/
def chooseMultipleGo (nxt : σ → Nat × σ) (k : Nat) :
    List α → Nat → List α → σ → List α × σ
  | [], _, buf, s => (buf, s)
  | a :: rest, i, buf, s =>
    let (n, s') := nxt s
    let j := n % (i + 1)
    chooseMultipleGo nxt k rest (i + 1) (if j < k then buf.set j a else buf) s'

/-- Modelled from the spec: `IteratorRandom::choose_multiple(rng, k)` as
reservoir sampling (first `k` kept, then one draw per later element). -/
def chooseMultiple (nxt : σ → Nat × σ) (l : List α) (k : Nat) (s : σ) :
    List α × σ :=
  if l.length ≤ k then (l, s)
  else chooseMultipleGo nxt k (l.drop k) k (l.take k) s

/-- Modelled from the spec: `.iter().choose(&mut rng)` — `none` without a
draw on an empty sequence, otherwise one uniform index draw. -/
def chooseFrom (nxt : σ → Nat × σ) (l : List α) (s : σ) : Option α × σ :=
  match l with
  | [] => (none, s)
  | _ =>
    let (j, s') := genIndex nxt l.length s
    (l.get? j, s')

end Rand

/-! Cell constants, from lib.rs. -/

/-- `pub const WALL: i8 = -1` (lib.rs). -/
def WALL : Int := -1

/-- `pub const OUTSIDE: i8 = -2` (lib.rs). -/
def OUTSIDE : Int := -2

/-- `pub const CLOSED_DOOR: i8 = -3` (lib.rs). -/
def CLOSED_DOOR : Int := -3

/-- `pub const OPEN_DOOR: i8 = -4` (lib.rs). -/
def OPEN_DOOR : Int := -4

/-- `pub const OBSTACLES: [i8; 3] = [WALL, OUTSIDE, CLOSED_DOOR]` (lib.rs). -/
def OBSTACLES : List Int := [WALL, OUTSIDE, CLOSED_DOOR]

/-- `rid as Cell` where `Cell = i8`: wrap a `usize` into a signed byte. -/
def i8ofNat (n : Nat) : Int := ((n + 128) % 256 : Nat) - 128

/-! Grid primitives (gen.rs).

The source works on row-major `Vec<bool>` masks.  A mask over a `W × H`
grid is encoded as the natural number whose `i`-th binary digit is entry
`i` of the vector; the grid size `n = W·H` is passed alongside.  This is a
pure change of representation — every operation below reads or writes the
same entries the source does. -/

/-- `mask[i] = true` on the encoded mask. -/
def getBit (m i : Nat) : Bool := m.testBit i

/-- `mask[i] = true` (write). -/
def setBit (m i : Nat) : Nat := m ||| (1 <<< i)

/-- `mask[i] = false` (write). -/
def clrBit (m i : Nat) : Nat := if m.testBit i then m - (1 <<< i) else m

/-- Number of `true` cells among the first `n` entries
(the source's `mask.iter().filter(|&&b| b).count()`). -/
def popCnt (n m : Nat) : Nat :=
  ((List.range n).filter (fun i => m.testBit i)).length

/-- Tail of `find_runs`: count rises `false → true`, carrying `prev`. -/
def findRunsGo : List Bool → Bool → Nat
  | [], _ => 0
  | v :: rest, prev => (if v && !prev then 1 else 0) + findRunsGo rest v

/-- `find_runs` (gen.rs): number of maximal contiguous `true` runs. -/
def find_runs (arr : List Bool) : Nat := findRunsGo arr false

/-- Maximal `true`-run lengths of the first `w` bits of `bits` starting
at position `i` with an open run of length `c`. -/
def runLengthsGoB (bits : Nat) : Nat → Nat → Nat → List Nat
  | 0, _, c => if c = 0 then [] else [c]
  | w + 1, i, c =>
    if bits.testBit i then runLengthsGoB bits w (i + 1) (c + 1)
    else if c = 0 then runLengthsGoB bits w (i + 1) 0
    else c :: runLengthsGoB bits w (i + 1) 0

/-- All maximal `true`-run lengths of a `w`-bit row or column. -/
def runLengthsB (bits w : Nat) : List Nat := runLengthsGoB bits w 0 0

/-- Row `y` of a row-major mask, as a `W`-bit number. -/
def rowBits (m W y : Nat) : Nat := (m >>> (y * W)) &&& (2 ^ W - 1)

/-- Column `x` of a row-major mask, as an `H`-bit number. -/
def colBits (m W H x : Nat) : Nat :=
  (List.range H).foldl (fun acc y => if m.testBit (y * W + x) then acc ||| (1 <<< y) else acc) 0

/-- `thinnest_segment_length` (gen.rs): `(min_w, min_h)` where `min_w` is
the shortest `true` run over all rows (starting from `width`) and `min_h`
the shortest run over all columns (starting from `height`).  The source
scans each row/column closing runs at the end; folding `min` over the
maximal run lengths computes the same values. -/
def thinnest_segment_length (m : Nat) (W H : Nat) : Nat × Nat :=
  let minW := (List.range H).foldl
    (fun acc y => (runLengthsB (rowBits m W y) W).foldl min acc) W
  let minH := (List.range W).foldl
    (fun acc x => (runLengthsB (colBits m W H x) H).foldl min acc) H
  (minW, minH)

/-! Regions and the shell (gen.rs). -/

/-- `Region` (gen.rs): encoded mask, area, bounding box
`(miny, maxy, minx, maxx)`. -/
structure Region where
  mask : Nat
  area : Nat
  bbox : Nat × Nat × Nat × Nat
deriving DecidableEq, Repr

/-- `Region::new` (gen.rs) over a `W × H` grid of `n = W·H` cells.  The
source `unwrap`s the min/max of the populated coordinates, panicking on an
all-false mask; the all-false case (bounding box zeroed here) is never
reached in the runs proved about. -/
def Region.ofMask (mask : Nat) (n W : Nat) : Region :=
  let idxs := (List.range n).filter (fun i => mask.testBit i)
  let ys := idxs.map (· / W)
  let xs := idxs.map (· % W)
  { mask := mask
    area := popCnt n mask
    bbox := (ys.foldl min (ys.headD 0), ys.foldl max 0,
             xs.foldl min (xs.headD 0), xs.foldl max 0) }

/-- Does `(x, y)` fall in the carved `w1 × h1` notch of corner `c`
(0 top-left, 1 top-right, 2 bottom-right, 3 bottom-left)?  Mirrors the
index arithmetic of the four `match corner` arms of gen.rs. -/
def inNotch (corner w1 h1 W H x y : Nat) : Bool :=
  match corner with
  | 0 => decide (x < w1) && decide (y < h1)
  | 1 => decide (W - w1 ≤ x) && decide (y < h1)
  | 2 => decide (W - w1 ≤ x) && decide (H - h1 ≤ y)
  | _ => decide (x < w1) && decide (H - h1 ≤ y)

/-- `make_concave_shell` (gen.rs): full `W×H` shell minus a seeded
`w1 × h1` corner notch, `w1, h1 ∈ [3,5]` clamped by `min` to the grid,
corner drawn from `0..4`; the three draws occur in exactly this order. -/
def make_concave_shell (W H : Nat) (seed : Nat) : Nat :=
  let (w1r, s1) := genRange smNext 3 5 seed
  let w1 := min w1r W
  let (h1r, s2) := genRange smNext 3 5 s1
  let h1 := min h1r H
  let (corner, _) := genIndex smNext 4 s2
  (List.range (W * H)).foldl
    (fun acc i =>
      if inNotch corner w1 h1 W H (i % W) (i / W) then acc else acc ||| (1 <<< i))
    0

/-! BSP carver (gen.rs `bsp_with_walls`). -/

/-- Cells of the region mask strictly left of column `x` (the source's
`mask_a` for a vertical split, and the `left` ratio count). -/
def sideMaskLt (mask : Nat) (n W x : Nat) : Nat :=
  mask &&& (List.range n).foldl
    (fun acc i => if i % W < x then acc ||| (1 <<< i) else acc) 0

/-- Cells strictly right of column `x` (`mask_b`, `right`). -/
def sideMaskGt (mask : Nat) (n W x : Nat) : Nat :=
  mask &&& (List.range n).foldl
    (fun acc i => if i % W > x then acc ||| (1 <<< i) else acc) 0

/-- Cells strictly above row `y` (`mask_a` for a horizontal split, `top`). -/
def sideMaskUp (mask : Nat) (n W y : Nat) : Nat :=
  mask &&& (List.range n).foldl
    (fun acc i => if i / W < y then acc ||| (1 <<< i) else acc) 0

/-- Cells strictly below row `y` (`mask_b`, `bot`). -/
def sideMaskDn (mask : Nat) (n W y : Nat) : Nat :=
  mask &&& (List.range n).foldl
    (fun acc i => if i / W > y then acc ||| (1 <<< i) else acc) 0

/-- Aspect-ratio acceptance of one split side (gen.rs).  The source
computes `ar = bw/max(1,mh)` if `bw ≥ bh`, else `bh/max(1,mw)`, in `f64`,
and rejects when `ar < MIN_AR (1.2)` or `ar > MAX_AR (4.0)`.  For the
integer magnitudes a grid can produce (numerator and denominator far below
2^50, and quotients of such integers never falling inside the one-ulp gap
around the thresholds), the `f64` comparisons decide exactly the rational
comparisons `5·num < 6·den` and `num > 4·den`, which is how they are
modelled here. -/
def arOk (sideMask : Nat) (n W H : Nat) : Bool :=
  let p := thinnest_segment_length sideMask W H
  let idxs := (List.range n).filter (fun i => sideMask.testBit i)
  let xs2 := idxs.map (· % W)
  let ys2 := idxs.map (· / W)
  let bw := xs2.foldl max 0 - xs2.foldl min (xs2.headD 0) + 1
  let bh := ys2.foldl max 0 - ys2.foldl min (ys2.headD 0) + 1
  let num := if bw ≥ bh then bw else bh
  let den := if bw ≥ bh then max 1 p.2 else max 1 p.1
  decide (6 * den ≤ 5 * num) && decide (num ≤ 4 * den)

/-- Validity of a vertical split of `r` at column `x` (gen.rs): the column
inside the bounding box is fully in the region in one run, both sides keep
at least `MIN_SIZE_RATIO = 0.2` of the area (the `f64` comparison
`(left as f64) < 0.2 * (area as f64)` decides exactly `5·left < area` for
these magnitudes), and both sides pass the aspect-ratio check. -/
def vSplitOk (r : Region) (W H x : Nat) : Bool :=
  let n := W * H
  let (miny, maxy, _minx, _maxx) := r.bbox
  let col := (List.range (maxy + 1 - miny)).map
    (fun k => r.mask.testBit ((miny + k) * W + x))
  let lm := sideMaskLt r.mask n W x
  let rm := sideMaskGt r.mask n W x
  col.all id && (find_runs col == 1) &&
    decide (5 * popCnt n lm ≥ r.area) && decide (5 * popCnt n rm ≥ r.area) &&
    arOk lm n W H && arOk rm n W H

/-- Validity of a horizontal split of `r` at row `y` (gen.rs). -/
def hSplitOk (r : Region) (W H y : Nat) : Bool :=
  let n := W * H
  let (_miny, _maxy, minx, maxx) := r.bbox
  let row := (List.range (maxx + 1 - minx)).map
    (fun k => r.mask.testBit (y * W + (minx + k)))
  let tm := sideMaskUp r.mask n W y
  let bm := sideMaskDn r.mask n W y
  row.all id && (find_runs row == 1) &&
    decide (5 * popCnt n tm ≥ r.area) && decide (5 * popCnt n bm ≥ r.area) &&
    arOk tm n W H && arOk bm n W H

/-- Vertical candidate columns (gen.rs): enumerate `minx+1 .. maxx-1`,
reservoir-sample down to `SAMPLE_C = 10` when more, keep the valid ones.
The source's per-candidate `continue`s are the same as this filter. -/
def vCandidates {σ : Type} (nxt : σ → Nat × σ) (r : Region) (W H : Nat)
    (s : σ) : List Nat × σ :=
  let (miny, maxy, minx, maxx) := r.bbox
  let _ := (miny, maxy)
  let xs := (List.range (maxx - (minx + 1))).map (fun k => minx + 1 + k)
  let (xs', s') := if xs.length > 10 then chooseMultiple nxt xs 10 s else (xs, s)
  (xs'.filter (vSplitOk r W H), s')

/-- Horizontal candidate rows (gen.rs): `miny+1 .. maxy-1`, sampled, valid. -/
def hCandidates {σ : Type} (nxt : σ → Nat × σ) (r : Region) (W H : Nat)
    (s : σ) : List Nat × σ :=
  let (miny, maxy, _minx, _maxx) := r.bbox
  let ys := (List.range (maxy - (miny + 1))).map (fun k => miny + 1 + k)
  let (ys', s') := if ys.length > 10 then chooseMultiple nxt ys 10 s else (ys, s)
  (ys'.filter (hSplitOk r W H), s')

/-- The two child masks of a split (gen.rs `mask_a`, `mask_b`): for a
vertical (`vert = true`) split at `coord`, cells with column `< coord` and
`> coord`; for horizontal, rows `< coord` and `> coord`. -/
def splitMasks (r : Region) (n W : Nat) (vert : Bool) (coord : Nat) :
    Nat × Nat :=
  if vert then (sideMaskLt r.mask n W coord, sideMaskGt r.mask n W coord)
  else (sideMaskUp r.mask n W coord, sideMaskDn r.mask n W coord)

/-- Mark the split line in the wall mask (gen.rs): the full bbox extent of
the split row/column. -/
def addWallLine (wallMask : Nat) (W : Nat) (vert : Bool) (coord : Nat)
    (r : Region) : Nat :=
  let (miny, maxy, minx, maxx) := r.bbox
  if vert then
    (List.range (maxy + 1 - miny)).foldl
      (fun acc k => setBit acc ((miny + k) * W + coord)) wallMask
  else
    (List.range (maxx + 1 - minx)).foldl
      (fun acc k => setBit acc (coord * W + (minx + k))) wallMask

/-- Insert into a list sorted by area descending, before any equal-area
element already present.  The source uses `sort_unstable_by_key` with key
`usize::MAX - area` whose order on equal keys is unspecified; modelled as
the stable descending sort. -/
def insertDescArea : Region → List Region → List Region
  | r, [] => [r]
  | r, a :: rest =>
    if a.area ≤ r.area then r :: a :: rest else a :: insertDescArea r rest

/-- Stable sort by area descending (`regions.sort_unstable_by_key`). -/
def sortDescArea (l : List Region) : List Region := l.foldr insertDescArea []

/-- One round of the `while regions.len() < target_rooms` loop plus the
recursion (gen.rs): pop the largest region; push it back and stop if it is
too small (`area < 2·MIN_ROOM_AREA_CELLS = 48`) or its bbox is thinner
than `2·MIN_THICK_CELLS = 6` on either axis or no candidate is valid;
otherwise choose a candidate uniformly (vertical candidates listed before
horizontal ones), wall the split line, and push the larger part first.
Each split grows the region list by one, so `fuel := target` bounds the
recursion. -/
def bspLoop {σ : Type} (nxt : σ → Nat × σ) :
    Nat → Nat → Nat → Nat → List Region → Nat → σ →
    List Region × Nat × σ
  | 0, _, _, _, regions, wallMask, s => (regions, wallMask, s)
  | fuel + 1, target, W, H, regions, wallMask, s =>
    if regions.length < target then
      match sortDescArea regions with
      | [] => ([], wallMask, s)
      | r :: rest =>
        if r.area < 48 then (rest ++ [r], wallMask, s)
        else
          let (miny, maxy, minx, maxx) := r.bbox
          if maxy + 1 - miny < 6 || maxx + 1 - minx < 6 then
            (rest ++ [r], wallMask, s)
          else
            let (vc, s1) := vCandidates nxt r W H s
            let (hc, s2) := hCandidates nxt r W H s1
            let cands := vc.map (fun x => (true, x)) ++ hc.map (fun y => (false, y))
            match chooseFrom nxt cands s2 with
            | (none, s3) => (rest ++ [r], wallMask, s3)
            | (some (vert, coord), s3) =>
              let n := W * H
              let wallMask' := addWallLine wallMask W vert coord r
              let (ma, mb) := splitMasks r n W vert coord
              let ra := Region.ofMask ma n W
              let rb := Region.ofMask mb n W
              let newRegions :=
                if popCnt n ma ≥ popCnt n mb then rest ++ [ra, rb]
                else rest ++ [rb, ra]
              bspLoop nxt fuel target W H newRegions wallMask' s3
    else (regions, wallMask, s)

/-- Outer walls (gen.rs): a shell cell adjacent — diagonals included — to
a non-shell cell or to the grid edge becomes a wall. -/
def carveOuterWalls (shell wallMask : Nat) (W H : Nat) : Nat :=
  (List.range (W * H)).foldl
    (fun acc i =>
      if shell.testBit i &&
        (List.range 9).any (fun k =>
          let dy := k / 3
          let dx := k % 3
          if dy == 1 && dx == 1 then false
          else
            let qy : Int := (i / W : Nat) + (dy : Int) - 1
            let qx : Int := (i % W : Nat) + (dx : Int) - 1
            decide (qy < 0) || decide (qx < 0) ||
              decide (qy ≥ (H : Int)) || decide (qx ≥ (W : Int)) ||
              !(shell.testBit (qy.toNat * W + qx.toNat)))
      then setBit acc i else acc)
    wallMask

/-- `bsp_with_walls` (gen.rs): run the split loop from the single shell
region, then carve the outer walls. -/
def bsp_with_walls (shell : Nat) (target_rooms : Nat) (seed : Nat)
    (W H : Nat) : List Region × Nat :=
  match bspLoop smNext (target_rooms + 1) target_rooms W H
    [Region.ofMask shell (W * H) W] 0 seed with
  | (regions, wallMask, _) => (regions, carveOuterWalls shell wallMask W H)

/-! Labelling and the door carver (gen.rs). -/

/-- `build_labels` (gen.rs): start from `OUTSIDE`, then for each region in
order write its index (`rid as Cell`, a wrapping `usize → i8` cast) at
every mask cell; later regions overwrite earlier ones where masks overlap. -/
def build_labels (regions : List Region) (W H : Nat) : List Int :=
  (List.range (W * H)).map (fun i =>
    match (regions.enum.filter (fun p => p.2.mask.testBit i)).getLast? with
    | some p => i8ofNat p.1
    | none => OUTSIDE)

/-- The adjacency scan of `carve_doors` (gen.rs): for every strictly
interior wall cell whose four neighbours are all shell cells, emit
`((min a b, max a b), idx)` when its left/right labels are distinct rooms,
else when its up/down labels are, in row-major scan order.  The
`BTreeMap<(Cell,Cell), Vec<usize>>` of the source is recovered from this
list: a key's bucket is the entries with that key, in scan order. -/
def doorAdjEntries (labels : List Int) (wallMask shell : Nat)
    (W H : Nat) : List ((Int × Int) × Nat) :=
  (List.range (H - 2)).flatMap (fun y0 =>
    (List.range (W - 2)).filterMap (fun x0 =>
      let idx := (y0 + 1) * W + (x0 + 1)
      if !(wallMask.testBit idx) then none
      else if !(shell.testBit (idx - W) && shell.testBit (idx + W) &&
                shell.testBit (idx - 1) && shell.testBit (idx + 1)) then none
      else
        let left := labels.getD (idx - 1) OUTSIDE
        let right := labels.getD (idx + 1) OUTSIDE
        if left ≥ 0 && right ≥ 0 && left ≠ right then
          some ((min left right, max left right), idx)
        else
          let up := labels.getD (idx - W) OUTSIDE
          let down := labels.getD (idx + W) OUTSIDE
          if up ≥ 0 && down ≥ 0 && up ≠ down then
            some ((min up down, max up down), idx)
          else none))

/-- Boolean lexicographic order on `Int × Int` (the `BTreeMap` key order). -/
def pairLe (a b : Int × Int) : Bool :=
  decide (a.1 < b.1) || (decide (a.1 = b.1) && decide (a.2 ≤ b.2))

/-- Insert into a list keeping it sorted by `le`. -/
def insBy {α : Type} (le : α → α → Bool) : α → List α → List α
  | a, [] => [a]
  | a, b :: rest => if le a b then a :: b :: rest else b :: insBy le a rest

/-- Insertion sort by a boolean order. -/
def sortByB {α : Type} (le : α → α → Bool) (l : List α) : List α :=
  l.foldr (insBy le) []

/-- Breadth-first spanning tree (gen.rs): pop the queue front, walk the
node's neighbour set in ascending order (a `BTreeSet`), record unseen
neighbours and the tree edge in `(min,max)` form.  Each node is enqueued
at most once, so `fuel := #nodes + 1` suffices. -/
def bfsTree (nbrs : Int → List Int) :
    Nat → List Int → List Int → List (Int × Int) → List (Int × Int)
  | 0, _, _, edges => edges
  | _ + 1, [], _, edges => edges
  | fuel + 1, u :: qrest, seen, edges =>
    let step := (nbrs u).foldl
      (fun (acc : List Int × List Int × List (Int × Int)) v =>
        if acc.1.contains v then acc
        else (acc.1 ++ [v], acc.2.1 ++ [v],
              acc.2.2 ++ [if u < v then (u, v) else (v, u)]))
      (seen, qrest, edges)
    bfsTree nbrs fuel step.2.1 step.1 step.2.2

/-- Doorway carving for one spanning-tree edge (gen.rs): sort the bucket
of wall indices by row when they share a column, else by column (the
source's `sort_unstable_by_key`; ties cannot arise between distinct
indices sharing the sort key only when the key repeats, where the
unstable order is unspecified and modelled stable), draw a door width
`gen_range(2..=4)` clamped by `min` to the bucket size, draw a start
`gen_range(0..=total-width)`, and return the carved slice. -/
def carveEdge {σ : Type} (nxt : σ → Nat × σ) (bucket : List Nat) (W : Nat)
    (s : σ) : List Nat × σ :=
  let allXEq := bucket.all (fun i => i % W == (bucket.headD 0) % W)
  let sorted :=
    if allXEq then sortByB (fun a b => Nat.ble (a / W) (b / W)) bucket
    else sortByB (fun a b => Nat.ble (a % W) (b % W)) bucket
  let total := sorted.length
  let (wr, s1) := genRange nxt 2 4 s
  let w := min wr total
  let (start, s2) := genRange nxt 0 (total - w) s1
  ((sorted.drop start).take w, s2)

/-- `carve_doors` (gen.rs).  Returns `(door_mask, wall_mask)` — the source
mutates `wall_mask` in place while filling `door_mask`.  The region
adjacency graph, its highest-degree root (Rust's `max_by_key` returns the
last maximum over the ascending key iteration), the BFS spanning tree and
the per-edge carving follow the source; the `BTreeSet` of tree edges is
iterated in sorted order. -/
def carve_doors (labels : List Int) (wallMask shell : Nat)
    (seed : Nat) (W H : Nat) : Nat × Nat :=
  let entries := doorAdjEntries labels wallMask shell W H
  if entries.isEmpty then (0, wallMask)
  else
    let keys := (sortByB pairLe (entries.map Prod.fst)).dedup
    let nodes := (sortByB (fun a b => decide (a ≤ b))
      (keys.flatMap (fun k => [k.1, k.2]))).dedup
    let nbrs := fun a => (sortByB (fun x y => decide (x ≤ y))
      (keys.filterMap (fun k =>
        if k.1 == a then some k.2 else if k.2 == a then some k.1 else none))).dedup
    let central := nodes.foldl
      (fun c v => if (nbrs c).length ≤ (nbrs v).length then v else c)
      (nodes.headD 0)
    let treeEdges :=
      (sortByB pairLe (bfsTree nbrs (nodes.length + 1) [central] [central] [])).dedup
    match treeEdges.foldl
      (fun (acc : Nat × Nat × Nat) edge =>
        match acc with
        | (dm, wm, s) =>
          let bucket := (entries.filter (fun e => e.1 == edge)).map Prod.snd
          match carveEdge smNext bucket W s with
          | (carved, s') =>
            (carved.foldl (fun dm2 i => setBit dm2 i) dm,
             carved.foldl (fun wm2 i => clrBit wm2 i) wm, s'))
      (0, wallMask, seed) with
    | (dm, wm, _) => (dm, wm)

/-! The data model (gen.rs `Layout`/`World`, object.rs `Object`). -/

/-- Modelled from the spec (§4.6): the fixed 10-name room pool.  The pool
itself appears nowhere under src/ (only the spec lists it). -/
def roomNamePool : List String :=
  ["Living Room", "Kitchen", "Bedroom", "Bathroom", "Dining Room",
   "Study", "Guest Room", "Office", "Hallway", "Playroom"]

/-- Modelled from the spec (§4.6): room naming is missing from gen.rs —
its `Layout` has no `room_names` field and `generate` never builds names —
while object.rs (`InRoomNamed`), the wasm binding and the python binding
all read `layout.room_names`.  Modelled as: shuffle the pool with the
seeded PRNG and take the first `numRegions` entries. -/
def makeRoomNames (seed : Nat) (numRegions : Nat) : List String :=
  ((shuffle smNext roomNamePool seed).1).take numRegions

/-- `Layout` (gen.rs), extended with the `room_names` field that object.rs
and both bindings require (see `makeRoomNames`). -/
structure Layout where
  width : Nat
  height : Nat
  cells : List Int
  room_names : List String
deriving DecidableEq, Repr

/-- The cell value at `(x, y)`.  The source indexes `cells[y*width+x]`
directly (panicking out of bounds); every evaluation point in the
theorems below is in bounds, where the default is never used. -/
def Layout.cellAt (l : Layout) (x y : Nat) : Int :=
  l.cells.getD (y * l.width + x) OUTSIDE

/-- `Object` (object.rs): id, schema name, capacity (0 = not a
container), pickable flag, grid position, child ids, description. -/
structure Object where
  id : Nat
  name : String
  capacity : Nat
  pickable : Bool
  x : Nat
  y : Nat
  contents : List Nat
  description : String
deriving DecidableEq, Repr

/-- `World` (gen.rs): layout plus the ordered object list. -/
structure World where
  layout : Layout
  objects : List Object
deriving DecidableEq, Repr

/-- `GenOpts` (gen.rs). -/
structure GenOpts where
  seed : Nat
  max_rooms : Nat
  width : Nat
  height : Nat
  max_objects : Nat
deriving DecidableEq, Repr

/-! Constraint DSL (object.rs). -/

mutual
/-- `ObjectConstraint` (object.rs).  The source's
`And(Vec<ObjectConstraint>)` / `Or(Vec<ObjectConstraint>)` children are
kept as the mutually defined cons-list `ConstraintList` so that the
recursive evaluator is structurally recursive. -/
inductive ObjectConstraint where
  | inRoom
  | adjacentObstacle
  | closeToObstacle
  | and (cs : ConstraintList)
  | or (cs : ConstraintList)
  | insideOf (names : List String)
  | worldHas (names : List String)
  | inRoomNamed (names : List String)

/-- The children vector of `And`/`Or` (a cons-list of constraints). -/
inductive ConstraintList where
  | nil
  | cons (c : ObjectConstraint) (rest : ConstraintList)
end

/-- Rebuild a `ConstraintList` from an ordinary list. -/
def toCL : List ObjectConstraint → ConstraintList
  | [] => .nil
  | c :: r => .cons c (toCL r)

/-- `And` with list-literal children, as the source writes `And(vec![…])`. -/
def ObjectConstraint.andL (cs : List ObjectConstraint) : ObjectConstraint :=
  .and (toCL cs)

/-- `Or` with list-literal children (`Or(vec![…])`). -/
def ObjectConstraint.orL (cs : List ObjectConstraint) : ObjectConstraint :=
  .or (toCL cs)

/-- Does some 4-neighbour at the given axis offsets hold a negative cell?
Out-of-bounds neighbours do not match (object.rs). -/
def negNeighbor (l : Layout) (x y : Nat) (offs : List (Int × Int)) : Bool :=
  offs.any (fun d =>
    let qx : Int := (x : Int) + d.1
    let qy : Int := (y : Int) + d.2
    decide (0 ≤ qx) && decide (0 ≤ qy) &&
      decide (qx < (l.width : Int)) && decide (qy < (l.height : Int)) &&
      decide (l.cells.getD (qy.toNat * l.width + qx.toNat) OUTSIDE < 0))

mutual
/-- `ObjectConstraint::check` (object.rs) against `(world, x, y)`.
`InRoomNamed` casts the cell `i8` to `usize` (sign-extending negatives to
huge indices); the source then indexes `room_names` and panics when out
of range — modelled as `false`, and never reached at the in-range room
cells the theorems below evaluate at.  `checkAll`/`checkAny` are the
source's `iter().all(..)` / `iter().any(..)` over the children. -/
def ObjectConstraint.check : ObjectConstraint → World → Nat → Nat → Bool
  | .inRoom, w, x, y => decide (w.layout.cellAt x y ≥ 0)
  | .adjacentObstacle, w, x, y =>
    decide (w.layout.cellAt x y ≥ 0) &&
      negNeighbor w.layout x y [(-1, 0), (1, 0), (0, -1), (0, 1)]
  | .closeToObstacle, w, x, y =>
    decide (w.layout.cellAt x y ≥ 0) &&
      negNeighbor w.layout x y [(-2, 0), (2, 0), (0, -2), (0, 2)]
  | .and cs, w, x, y => ConstraintList.checkAll cs w x y
  | .or cs, w, x, y => ConstraintList.checkAny cs w x y
  | .insideOf names, w, x, y =>
    w.objects.any (fun o =>
      names.contains o.name && o.x == x && o.y == y &&
        decide (o.contents.length < o.capacity))
  | .inRoomNamed names, w, x, y =>
    let c := w.layout.cellAt x y
    match w.layout.room_names.get? ((c % (U64 : Int)).toNat) with
    | some nm => names.contains nm
    | none => false
  | .worldHas names, w, _, _ =>
    w.objects.any (fun o => names.contains o.name)

/-- Conjunction over `And` children. -/
def ConstraintList.checkAll : ConstraintList → World → Nat → Nat → Bool
  | .nil, _, _, _ => true
  | .cons c rest, w, x, y =>
    ObjectConstraint.check c w x y && ConstraintList.checkAll rest w x y

/-- Disjunction over `Or` children. -/
def ConstraintList.checkAny : ConstraintList → World → Nat → Nat → Bool
  | .nil, _, _, _ => false
  | .cons c rest, w, x, y =>
    ObjectConstraint.check c w x y || ConstraintList.checkAny rest w x y
end

/-- `ObjectSchema` (object.rs). -/
structure ObjectSchema where
  capacity : Nat
  name : String
  pickable : Bool
  constraint : ObjectConstraint
  description : String
  target : ObjectConstraint

/-- Shorthand constructor used to transcribe `default_schemas`. -/
def mkSchema (name : String) (capacity : Nat) (pickable : Bool)
    (constraint : ObjectConstraint) (target : ObjectConstraint)
    (description : String) : ObjectSchema :=
  { capacity, name, pickable, constraint, description, target }

/-- `ObjectSchema::default_schemas` (object.rs), in source order — the
order feeds the seeded shuffle of the placement engine. -/
def default_schemas : List ObjectSchema :=
  [mkSchema "TrashCan" 20 false .inRoom .inRoom "A trash can.",
   mkSchema "Cupboard" 20 false .adjacentObstacle .inRoom "A kitchen cupboard.",
   mkSchema "KitchenCabinet" 10 false
     (.andL [.inRoomNamed ["Kitchen"], .adjacentObstacle]) .inRoom "A kitchen cabinet.",
   mkSchema "Dishwasher" 20 false
     (.andL [.inRoomNamed ["Kitchen"], .adjacentObstacle]) .inRoom "A built-in dishwasher.",
   mkSchema "Refrigerator" 10 false
     (.andL [.inRoomNamed ["Kitchen"], .adjacentObstacle]) .inRoom "A refrigerator.",
   mkSchema "FruitBowl" 10 false
     (.inRoomNamed ["Kitchen", "Dining Room", "Living Room"]) .inRoom
     "A bowl for holding fruit.",
   mkSchema "Drawer" 15 false (.inRoomNamed ["Bedroom", "Office", "Study"]) .inRoom
     "A sliding drawer unit.",
   mkSchema "StorageBox" 30 false
     (.orL [.inRoomNamed ["Hallway", "Living Room"], .adjacentObstacle]) .inRoom
     "A box for loose items.",
   mkSchema "DiningTable" 10 false (.inRoomNamed ["Dining Room", "Kitchen"]) .inRoom
     "A dining table.",
   mkSchema "CoffeeTable" 5 false (.inRoomNamed ["Living Room"]) .inRoom
     "A coffee table.",
   mkSchema "Bookshelf" 30 false
     (.inRoomNamed ["Living Room", "Study", "Bedroom", "Office"]) .inRoom
     "A bookshelf.",
   mkSchema "TVStand" 5 false (.inRoomNamed ["Living Room"]) .inRoom "A TV stand.",
   mkSchema "Sofa" 3 false (.inRoomNamed ["Living Room", "Guest Room"]) .inRoom
     "A sofa.",
   mkSchema "Armchair" 1 false (.inRoomNamed ["Living Room", "Study"]) .inRoom
     "An armchair.",
   mkSchema "Bed" 5 false (.inRoomNamed ["Bedroom", "Guest Room"]) .inRoom "A bed.",
   mkSchema "Wardrobe" 20 false (.inRoomNamed ["Bedroom", "Guest Room"]) .inRoom
     "A wardrobe.",
   mkSchema "Dresser" 10 false (.inRoomNamed ["Bedroom", "Guest Room"]) .inRoom
     "A dresser.",
   mkSchema "Desk" 10 false (.inRoomNamed ["Study", "Office", "Bedroom"]) .inRoom
     "A desk.",
   mkSchema "Nightstand" 5 false (.inRoomNamed ["Bedroom", "Guest Room"]) .inRoom
     "A nightstand.",
   mkSchema "ToyBox" 50 false (.inRoomNamed ["Playroom", "Living Room"]) .inRoom
     "A toy box.",
   mkSchema "BathroomCabinet" 10 false (.inRoomNamed ["Bathroom"]) .inRoom
     "A bathroom cabinet.",
   mkSchema "KeyHolder" 10 false (.inRoomNamed ["Hallway", "Office"]) .inRoom
     "A wall-mounted key holder.",
   mkSchema "Spatula" 0 true
     (.orL [.insideOf ["Drawer", "Cupboard", "Dishwasher", "DiningTable"],
           .inRoomNamed ["Kitchen"]])
     (.insideOf ["Drawer", "Cupboard", "Dishwasher"]) "A spatula for flipping food.",
   mkSchema "Whisk" 0 true
     (.orL [.insideOf ["Drawer", "Cupboard", "Dishwasher"], .inRoomNamed ["Kitchen"]])
     (.insideOf ["Drawer", "Cupboard", "Dishwasher"]) "A whisk for mixing ingredients.",
   mkSchema "CookingPot" 0 true
     (.orL [.insideOf ["Cupboard", "Dishwasher", "DiningTable"], .inRoomNamed ["Kitchen"]])
     (.insideOf ["Cupboard", "Dishwasher"]) "A large cooking pot.",
   mkSchema "FryingPan" 0 true
     (.orL [.insideOf ["Cupboard", "Dishwasher", "DiningTable"], .inRoomNamed ["Kitchen"]])
     (.insideOf ["Cupboard", "Dishwasher"]) "A frying pan.",
   mkSchema "CuttingBoard" 0 true
     (.orL [.insideOf ["Drawer", "Cupboard", "DiningTable"], .inRoomNamed ["Kitchen"]])
     (.insideOf ["Drawer", "Cupboard"]) "A wooden cutting board.",
   mkSchema "Dirty CuttingBoard" 0 true
     (.orL [.insideOf ["DiningTable"], .inRoomNamed ["Kitchen"]])
     (.insideOf ["Dishwasher"]) "A wooden cutting board.",
   mkSchema "Kettle" 0 true
     (.orL [.insideOf ["Cupboard"], .insideOf ["DiningTable"], .inRoomNamed ["Kitchen"]])
     (.insideOf ["Cupboard"]) "An electric kettle.",
   mkSchema "Blender" 0 true
     (.orL [.insideOf ["Cupboard", "DiningTable"], .inRoomNamed ["Kitchen"]])
     (.insideOf ["Cupboard"]) "A countertop blender.",
   mkSchema "Toaster" 0 true
     (.orL [.insideOf ["Cupboard", "DiningTable"], .inRoomNamed ["Kitchen"]])
     (.insideOf ["Cupboard"]) "A two-slice toaster.",
   mkSchema "Microwave" 1 false (.inRoomNamed ["Kitchen"]) .inRoom "A microwave oven.",
   mkSchema "MixingBowl" 0 true
     (.orL [.insideOf ["Cupboard"], .insideOf ["DiningTable"], .inRoomNamed ["Kitchen"]])
     (.insideOf ["Cupboard"]) "A ceramic mixing bowl.",
   mkSchema "Apple" 0 true
     (.orL [.insideOf ["FruitBowl"], .insideOf ["DiningTable"],
           .inRoomNamed ["Kitchen", "Dining Room"]])
     (.orL [.insideOf ["FruitBowl"], .insideOf ["Refrigerator"]]) "A fresh red apple.",
   mkSchema "Orange" 0 true
     (.orL [.insideOf ["FruitBowl"], .insideOf ["DiningTable"], .inRoomNamed ["Kitchen"]])
     (.insideOf ["FruitBowl"]) "A juicy orange.",
   mkSchema "MilkCarton" 0 true
     (.orL [.insideOf ["Refrigerator"], .insideOf ["DiningTable"], .inRoomNamed ["Kitchen"]])
     (.insideOf ["Refrigerator"]) "A carton of milk.",
   mkSchema "Egg" 0 true
     (.orL [.insideOf ["Refrigerator"], .insideOf ["DiningTable"], .inRoomNamed ["Kitchen"]])
     (.insideOf ["Refrigerator"]) "A chicken egg.",
   mkSchema "CerealBox" 0 true
     (.orL [.insideOf ["Cupboard"], .insideOf ["DiningTable"], .inRoomNamed ["Kitchen"]])
     (.insideOf ["Cupboard"]) "A box of cereal.",
   mkSchema "BreadLoaf" 0 true
     (.orL [.insideOf ["Cupboard"], .insideOf ["DiningTable"], .inRoomNamed ["Kitchen"]])
     (.insideOf ["Cupboard"]) "A loaf of bread.",
   mkSchema "CheeseBlock" 0 true (.insideOf ["Refrigerator"])
     (.insideOf ["Refrigerator"]) "A block of cheese.",
   mkSchema "YogurtCup" 0 true (.insideOf ["Refrigerator"])
     (.insideOf ["Refrigerator"]) "A cup of yogurt.",
   mkSchema "JuiceBottle" 0 true (.insideOf ["Refrigerator"])
     (.insideOf ["Refrigerator"]) "A bottle of juice.",
   mkSchema "WaterBottle" 0 true
     (.orL [.insideOf ["Refrigerator"], .insideOf ["DiningTable"], .inRoomNamed ["Kitchen"]])
     (.insideOf ["Refrigerator"]) "A bottle of water.",
   mkSchema "ShampooBottle" 0 true
     (.orL [.insideOf ["BathroomCabinet"], .inRoomNamed ["Bathroom"]])
     (.insideOf ["BathroomCabinet"]) "A bottle of shampoo.",
   mkSchema "SoapBar" 0 true
     (.orL [.insideOf ["BathroomCabinet"], .inRoomNamed ["Bathroom"]])
     (.insideOf ["BathroomCabinet"]) "A bar of soap.",
   mkSchema "Hairbrush" 0 true
     (.orL [.insideOf ["Drawer"], .inRoomNamed ["Bathroom"]])
     (.insideOf ["Drawer"]) "A hairbrush.",
   mkSchema "Razor" 0 true
     (.orL [.insideOf ["BathroomCabinet"], .inRoomNamed ["Bathroom"]])
     (.insideOf ["BathroomCabinet"]) "A shaving razor.",
   mkSchema "Towel" 0 true
     (.orL [.insideOf ["BathroomCabinet"], .inRoomNamed ["Bathroom"]])
     (.insideOf ["BathroomCabinet"]) "A bath towel.",
   mkSchema "Toothpaste" 0 true
     (.orL [.insideOf ["BathroomCabinet"], .inRoomNamed ["Bathroom"]])
     (.insideOf ["BathroomCabinet"]) "A tube of toothpaste.",
   mkSchema "ToothbrushHolder" 5 false (.inRoomNamed ["Bathroom"])
     (.inRoomNamed ["Bathroom"]) "A stand for toothbrushes.",
   mkSchema "Toothbrush" 0 true
     (.orL [.insideOf ["ToothbrushHolder", "BathroomCabinet"], .inRoomNamed ["Bathroom"]])
     (.insideOf ["ToothbrushHolder"]) "A toothbrush.",
   mkSchema "BathMat" 0 true (.inRoomNamed ["Bathroom"]) (.inRoomNamed ["Bathroom"])
     "A mat outside the tub.",
   mkSchema "Stapler" 0 true
     (.orL [.insideOf ["Drawer"], .inRoomNamed ["Office", "Study"]])
     (.insideOf ["Drawer"]) "A paper stapler.",
   mkSchema "PaperStack" 0 true
     (.orL [.insideOf ["Desk"], .inRoomNamed ["Office", "Study"]])
     (.insideOf ["Drawer"]) "A stack of loose papers.",
   mkSchema "Envelope" 0 true
     (.orL [.insideOf ["Desk"], .inRoomNamed ["Office", "Study"]])
     (.insideOf ["Drawer"]) "A paper envelope.",
   mkSchema "Calculator" 0 true
     (.orL [.insideOf ["Desk"], .inRoomNamed ["Office", "Study"]])
     (.insideOf ["Drawer"]) "A desk calculator.",
   mkSchema "Mouse" 0 true
     (.orL [.insideOf ["Desk"], .inRoomNamed ["Office", "Study"]])
     (.insideOf ["Drawer"]) "A computer mouse.",
   mkSchema "Keyboard" 0 true
     (.orL [.insideOf ["Desk"], .inRoomNamed ["Office", "Study"]])
     (.insideOf ["Desk"]) "A computer keyboard.",
   mkSchema "Monitor" 0 false (.inRoomNamed ["Office", "Study"])
     (.inRoomNamed ["Office", "Study"]) "A computer monitor.",
   mkSchema "Broom" 0 true (.orL [.insideOf ["StorageBox"], .inRoom])
     (.insideOf ["StorageBox"]) "A broom for sweeping.",
   mkSchema "Mop" 0 true (.orL [.insideOf ["StorageBox"], .inRoom])
     (.insideOf ["StorageBox"]) "A mop for mopping floors.",
   mkSchema "VacuumCleaner" 0 false .adjacentObstacle .adjacentObstacle
     "An upright vacuum cleaner.",
   mkSchema "Bucket" 0 true (.orL [.insideOf ["StorageBox"], .inRoom])
     (.insideOf ["StorageBox"]) "A cleaning bucket.",
   mkSchema "SprayBottle" 0 true (.orL [.insideOf ["StorageBox"], .inRoom])
     (.insideOf ["StorageBox"]) "A bottle of cleaning spray.",
   mkSchema "Sponge" 0 true (.orL [.insideOf ["StorageBox"], .inRoom])
     (.insideOf ["StorageBox"]) "A cleaning sponge.",
   mkSchema "Wallet" 0 true (.orL [.insideOf ["Drawer", "StorageBox"], .inRoom])
     (.insideOf ["Drawer", "StorageBox"]) "A personal wallet.",
   mkSchema "Sunglasses" 0 true
     (.orL [.insideOf ["Drawer"], .inRoomNamed ["Hallway", "Living Room"]])
     (.insideOf ["Drawer"]) "A pair of sunglasses.",
   mkSchema "Watch" 0 true (.orL [.insideOf ["Drawer"], .inRoom])
     (.insideOf ["Drawer"]) "A wristwatch.",
   mkSchema "Backpack" 0 true (.orL [.insideOf ["StorageBox"], .inRoom])
     (.insideOf ["StorageBox"]) "A shoulder backpack.",
   mkSchema "Umbrella" 0 true (.orL [.insideOf ["StorageBox"], .inRoom])
     (.insideOf ["StorageBox"]) "A closed umbrella.",
   mkSchema "PuzzlePiece" 0 true
     (.orL [.insideOf ["ToyBox"], .inRoomNamed ["Playroom"]])
     (.insideOf ["ToyBox"]) "A piece of a jigsaw puzzle.",
   mkSchema "LegoBrick" 0 true
     (.orL [.insideOf ["ToyBox"], .inRoomNamed ["Playroom"]])
     (.insideOf ["ToyBox"]) "A single lego brick.",
   mkSchema "Ball" 0 true (.orL [.insideOf ["ToyBox"], .inRoom])
     (.insideOf ["ToyBox"]) "A small ball.",
   mkSchema "Doll" 0 true
     (.orL [.insideOf ["ToyBox", "Sofa", "Armchair"], .inRoomNamed ["Playroom"]])
     (.insideOf ["ToyBox"]) "A child’s doll.",
   mkSchema "BoardGame" 0 true
     (.orL [.insideOf ["StorageBox"], .insideOf ["DiningTable", "CoffeeTable"]])
     (.insideOf ["StorageBox"]) "A board game set.",
   mkSchema "Crayon" 0 true
     (.orL [.insideOf ["StorageBox"], .inRoomNamed ["Playroom"]])
     (.insideOf ["StorageBox"]) "A colored crayon.",
   mkSchema "PaintBrush" 0 true
     (.orL [.insideOf ["StorageBox"], .inRoomNamed ["Playroom"]])
     (.insideOf ["StorageBox"]) "A paint brush.",
   mkSchema "Vase" 0 true
     (.orL [.insideOf ["CoffeeTable", "DiningTable"], .inRoom])
     (.insideOf ["CoffeeTable", "DiningTable"]) "A decorative vase.",
   mkSchema "PictureFrame" 0 true
     (.orL [.insideOf ["CoffeeTable", "DiningTable"], .inRoom])
     (.insideOf ["CoffeeTable", "DiningTable"]) "A photo in a frame.",
   mkSchema "Lamp" 0 false .adjacentObstacle .adjacentObstacle "A floor lamp.",
   mkSchema "Rug" 0 true .inRoom .inRoom "A small rug.",
   mkSchema "Cushion" 0 true (.orL [.insideOf ["Sofa", "Bed"], .inRoom])
     (.insideOf ["Sofa", "Bed"]) "A throw cushion.",
   mkSchema "GameController" 0 true
     (.orL [.insideOf ["StorageBox"], .inRoomNamed ["Living Room", "Office"]])
     (.insideOf ["StorageBox"]) "A video game controller.",
   mkSchema "Headphones" 0 true
     (.orL [.insideOf ["Drawer", "StorageBox"], .inRoomNamed ["Office", "Living Room"]])
     (.insideOf ["Drawer", "StorageBox"]) "A pair of headphones.",
   mkSchema "Speaker" 0 false .adjacentObstacle .adjacentObstacle
     "A Bluetooth speaker.",
   mkSchema "ChargingCable" 0 true
     (.orL [.insideOf ["Drawer", "StorageBox"], .inRoom])
     (.insideOf ["Drawer", "StorageBox"]) "A USB charging cable.",
   mkSchema "DirtyPlate" 0 true
     (.orL [.insideOf ["DiningTable", "Cupboard"], .inRoomNamed ["Kitchen", "Dining Room"]])
     (.insideOf ["Dishwasher"]) "A ceramic plate with leftover food scraps.",
   mkSchema "DirtyBowl" 0 true
     (.orL [.insideOf ["DiningTable", "Cupboard"], .inRoomNamed ["Kitchen", "Dining Room"]])
     (.insideOf ["Dishwasher"]) "A bowl stained with sauce or soup.",
   mkSchema "DirtyCup" 0 true
     (.orL [.insideOf ["DiningTable", "Cupboard"], .inRoomNamed ["Kitchen", "Dining Room"]])
     (.insideOf ["Dishwasher"]) "A cup with tea or coffee stains.",
   mkSchema "DirtySilverware" 0 true
     (.orL [.insideOf ["DiningTable"], .inRoomNamed ["Kitchen", "Dining Room"]])
     (.insideOf ["Dishwasher"]) "A spoon, fork, or knife covered in food residue.",
   mkSchema "DirtyGlass" 0 true
     (.orL [.insideOf ["Cupboard", "DiningTable"], .inRoomNamed ["Kitchen", "Dining Room"]])
     (.insideOf ["Dishwasher"]) "A drinking glass with lipstick or juice stains.",
   mkSchema "DirtyWineGlass" 0 true
     (.orL [.insideOf ["Cupboard", "DiningTable"], .inRoomNamed ["Kitchen", "Dining Room"]])
     (.insideOf ["Dishwasher"]) "A wine glass with dried wine residue.",
   mkSchema "DirtyMug" 0 true
     (.orL [.insideOf ["Cupboard", "DiningTable"], .inRoomNamed ["Kitchen", "Breakfast Nook"]])
     (.insideOf ["Dishwasher"]) "A coffee mug with grounds and stains.",
   mkSchema "DirtySaucepan" 0 true
     (.orL [.insideOf ["Cupboard", "StoveTop"], .inRoomNamed ["Kitchen"]])
     (.insideOf ["Dishwasher"]) "A saucepan caked with burnt-on sauce.",
   mkSchema "DirtyBakingTray" 0 true
     (.orL [.insideOf ["Cupboard", "Oven"], .inRoomNamed ["Kitchen"]])
     (.insideOf ["Dishwasher"]) "A baking tray with hardened batter or crumbs.",
   mkSchema "DirtyColander" 0 true
     (.orL [.insideOf ["Cupboard", "Sink Area"], .inRoomNamed ["Kitchen"]])
     (.insideOf ["Dishwasher"]) "A colander with stuck-on vegetable bits.",
   mkSchema "RottenTomato" 0 true
     (.orL [.insideOf ["FruitBowl", "DiningTable"], .inRoomNamed ["Kitchen", "Dining Room"]])
     (.insideOf ["TrashCan"]) "A tomato that has gone mushy and moldy.",
   mkSchema "MoldyBread" 0 true
     (.orL [.insideOf ["Cupboard", "DiningTable"], .inRoomNamed ["Kitchen"]])
     (.insideOf ["TrashCan"]) "A loaf of bread covered in green or white mold.",
   mkSchema "SpoiledLettuce" 0 true
     (.orL [.insideOf ["Refrigerator", "FruitBowl"], .inRoomNamed ["Kitchen"]])
     (.insideOf ["TrashCan"]) "A head of lettuce that’s wilted and slimy.",
   mkSchema "RottenBanana" 0 true
     (.orL [.insideOf ["FruitBowl", "DiningTable"], .inRoomNamed ["Kitchen"]])
     (.insideOf ["TrashCan"]) "A banana blackened with overripeness and rot.",
   mkSchema "RottenStrawberry" 0 true
     (.orL [.insideOf ["FruitBowl", "DiningTable"], .inRoomNamed ["Kitchen"]])
     (.insideOf ["TrashCan"]) "A strawberry covered in mold and leaking juices.",
   mkSchema "RottenGrapes" 0 true
     (.orL [.insideOf ["FruitBowl"], .inRoomNamed ["Kitchen"]])
     (.insideOf ["TrashCan"]) "A bunch of grapes that have shriveled and rotten.",
   mkSchema "SpoiledCucumber" 0 true
     (.orL [.insideOf ["Refrigerator", "DiningTable"], .inRoomNamed ["Kitchen"]])
     (.insideOf ["TrashCan"]) "A cucumber that’s gone soft and slimy.",
   mkSchema "SpoiledCarrot" 0 true
     (.orL [.insideOf ["Refrigerator", "VegetableCrisper"], .inRoomNamed ["Kitchen"]])
     (.insideOf ["TrashCan"]) "A carrot that’s limp and discolored.",
   mkSchema "RottenPotato" 0 true
     (.orL [.insideOf ["Pantry", "Cupboard"], .inRoomNamed ["Kitchen"]])
     (.insideOf ["TrashCan"]) "A potato speckled with soft spots and mold.",
   mkSchema "RottenOnion" 0 true
     (.orL [.insideOf ["Pantry", "Cupboard"], .inRoomNamed ["Kitchen"]])
     (.insideOf ["TrashCan"]) "An onion with a slimy, foul-smelling rot core.",
   mkSchema "MoldyBreadSlice" 0 true
     (.orL [.insideOf ["BreadLoaf", "DiningTable"], .inRoomNamed ["Kitchen"]])
     (.insideOf ["TrashCan"]) "A single slice of bread covered in fuzzy mold.",
   mkSchema "RottenBlueberries" 0 true
     (.orL [.insideOf ["FruitBowl"], .inRoomNamed ["Kitchen"]])
     (.insideOf ["TrashCan"]) "Blueberries that have burst and fermented.",
   mkSchema "LaundryBasket" 50 false (.inRoomNamed ["Laundry Room", "Bathroom"])
     (.inRoomNamed ["Laundry Room", "Bathroom"]) "A basket for holding dirty laundry.",
   mkSchema "DirtyClothes" 0 true
     (.insideOf ["LaundryBasket", "Wardrobe", "StorageBox"])
     (.insideOf ["LaundryBasket"]) "A pile of worn garments needing washing.",
   mkSchema "IroningBoard" 10 false (.inRoomNamed ["Laundry Room", "Bedroom"])
     (.inRoomNamed ["Laundry Room", "Bedroom"]) "A fold-out ironing board.",
   mkSchema "Iron" 0 true
     (.orL [.insideOf ["Cupboard", "Drawer"], .inRoomNamed ["Laundry Room", "Bedroom"]])
     (.insideOf ["Cupboard", "Drawer"]) "An electric clothes iron.",
   mkSchema "FireExtinguisher" 5 false .adjacentObstacle .adjacentObstacle
     "A wall-mounted fire extinguisher.",
   mkSchema "FirstAidKit" 0 true (.inRoomNamed ["Bathroom", "Hallway", "Office"])
     (.inRoomNamed ["Bathroom", "Hallway", "Office"]) "A box of first-aid supplies.",
   mkSchema "PetFoodBowl" 10 true (.inRoomNamed ["Kitchen", "Dining Room"])
     (.inRoomNamed ["Kitchen", "Dining Room"]) "A bowl for pet food or water.",
   mkSchema "PetBed" 5 false (.inRoomNamed ["Living Room", "Bedroom"])
     (.inRoomNamed ["Living Room", "Bedroom"]) "A cushioned pet bed.",
   mkSchema "DogLeash" 0 true (.insideOf ["Drawer", "StorageBox"])
     (.insideOf ["Drawer", "StorageBox"]) "A leash for walking a dog.",
   mkSchema "Hammer" 0 true (.insideOf ["GarageShelf", "StorageBox"])
     (.insideOf ["GarageShelf", "StorageBox"]) "A standard claw hammer.",
   mkSchema "ScrewdriverSet" 0 true (.insideOf ["GarageShelf", "Drawer"])
     (.insideOf ["GarageShelf", "Drawer"]) "A set of screwdrivers in a pouch.",
   mkSchema "Toolbox" 30 false (.inRoomNamed ["Garage", "Basement"])
     (.inRoomNamed ["Garage", "Basement"]) "A portable metal toolbox.",
   mkSchema "WallMirror" 0 false
     (.andL [.inRoomNamed ["Living Room", "Bedroom", "Hallway"], .adjacentObstacle])
     (.inRoomNamed ["Living Room", "Bedroom", "Hallway"])
     "A decorative wall mirror with an ornate frame.",
   mkSchema "WallClock" 0 false (.andL [.inRoom, .adjacentObstacle]) .inRoom
     "A round analog wall clock.",
   mkSchema "Chandelier" 0 false .adjacentObstacle .adjacentObstacle
     "An elegant ceiling chandelier.",
   mkSchema "Curtains" 0 true
     (.andL [.inRoomNamed ["Living Room", "Bedroom"], .adjacentObstacle])
     (.inRoomNamed ["Living Room", "Bedroom"]) "A pair of window curtains.",
   mkSchema "Blinds" 0 false
     (.andL [.inRoomNamed ["Office", "Living Room"], .adjacentObstacle])
     (.inRoomNamed ["Office", "Living Room"]) "A set of horizontal window blinds.",
   mkSchema "Tapestry" 0 true
     (.andL [.inRoomNamed ["Living Room", "Dining Room"], .adjacentObstacle])
     (.inRoomNamed ["Living Room", "Dining Room"]) "A decorative woven wall tapestry.",
   mkSchema "ThrowBlanket" 0 true
     (.orL [.insideOf ["Sofa", "Armchair", "Bed"], .inRoomNamed ["Living Room", "Bedroom"]])
     (.insideOf ["Wardrobe", "Dresser", "StorageBox"]) "A cozy knit throw blanket.",
   mkSchema "DecorativeBowl" 5 true (.insideOf ["CoffeeTable", "DiningTable", "Shelf"])
     (.insideOf ["Cupboard", "Drawer", "StorageBox"])
     "A ceramic bowl used purely for decoration.",
   mkSchema "CoasterSet" 4 true (.insideOf ["CoffeeTable", "SideTable"])
     (.insideOf ["Drawer"]) "A set of drink coasters.",
   mkSchema "Sculpture" 0 true (.insideOf ["Shelf", "CoffeeTable", "Mantel"])
     (.insideOf ["StorageBox"]) "A small decorative sculpture or figurine.",
   mkSchema "FairyLights" 0 true .inRoom (.insideOf ["StorageBox", "Drawer"])
     "A string of decorative fairy lights.",
   mkSchema "PhotoAlbum" 20 true (.insideOf ["CoffeeTable", "Bookshelf", "Desk"])
     (.insideOf ["Bookshelf", "Drawer"]) "A leather-bound photo album."]

/-! The placement engine (gen.rs `place_objects`).

gen.rs calls `schema.constraint.check(layout, x, y)`, which does not
typecheck against object.rs's `check(&self, world: &World, x, y)` — the
`check` version taking a bare layout is missing from this repository.
Modelled from the spec (§4.8: "`schema.constraint.check(world, x, y)`"
over the current world): checks run against the layout plus the objects
placed so far.  gen.rs also builds `Object` literals without the
`description` field object.rs declares; modelled from the spec (§3: every
object carries a description) as the schema's description. -/

/-- Is a constraint a top-level `InsideOf`?  (The source's
`matches!(s.constraint, ObjectConstraint::InsideOf(_))`.) -/
def isInsideOfC : ObjectConstraint → Bool
  | .insideOf _ => true
  | _ => false

/-- The object literal `place_objects` builds for `schema` at `(x, y)`. -/
def mkObject (schema : ObjectSchema) (id x y : Nat) : Object :=
  { id, name := schema.name, capacity := schema.capacity,
    pickable := schema.pickable, x, y, contents := [],
    description := schema.description }

/-- Place a new object with the next id inside the parent at index `pi`:
push the id onto the parent's `contents`, then append the child at the
parent's coordinates (gen.rs, both `InsideOf` and random-parent arms). -/
def intoParent (schema : ObjectSchema) (objects : List Object) (pi id : Nat) :
    List Object :=
  match objects.get? pi with
  | none => objects
  | some parent =>
    (objects.set pi { parent with contents := parent.contents ++ [id] }) ++
      [mkObject schema id parent.x parent.y]

/-- Floor placement (gen.rs): filter the shuffled floor cells by the
schema's constraint, choose one uniformly (no draw when none), append the
object there. -/
def floorPlace {σ : Type} (nxt : σ → Nat × σ) (layout : Layout)
    (freeCells : List (Nat × Nat)) (schema : ObjectSchema)
    (objects : List Object) (id : Nat) (s : σ) : List Object × Nat × σ :=
  let candidates := freeCells.filter
    (fun c => schema.constraint.check ⟨layout, objects⟩ c.1 c.2)
  match chooseFrom nxt candidates s with
  | (none, s') => (objects, id, s')
  | (some c, s') => (objects ++ [mkObject schema id c.1 c.2], id + 1, s')

/-- The per-schema loop of `place_objects` (gen.rs): stop once
`id ≥ max_objects`; an `InsideOf` schema goes into a uniformly chosen
parent of matching name with free capacity (skipped when none); any other
pickable schema first flips a fair coin when some parent has free
capacity, placing into a uniformly chosen such parent — without any
constraint check — on heads; everything else falls through to floor
placement under the schema's constraint. -/
def placeLoop {σ : Type} (nxt : σ → Nat × σ) (layout : Layout)
    (freeCells : List (Nat × Nat)) :
    List ObjectSchema → Nat → List Object → Nat → σ →
    List Object × Nat × σ
  | [], _, objects, id, s => (objects, id, s)
  | schema :: rest, maxObjects, objects, id, s =>
    if id ≥ maxObjects then (objects, id, s)
    else
      match schema.constraint with
      | .insideOf names =>
        let parentIdxs := (objects.enum.filter (fun p =>
          names.contains p.2.name &&
            decide (p.2.contents.length < p.2.capacity))).map Prod.fst
        (match chooseFrom nxt parentIdxs s with
         | (none, s1) =>
           placeLoop nxt layout freeCells rest maxObjects objects id s1
         | (some pi, s1) =>
           placeLoop nxt layout freeCells rest maxObjects
             (intoParent schema objects pi id) (id + 1) s1)
      | _ =>
        let parentIdxs := (objects.enum.filter (fun p =>
          decide (p.2.contents.length < p.2.capacity))).map Prod.fst
        if schema.pickable && !parentIdxs.isEmpty then
          let (coin, s1) := genBool nxt s
          if coin then
            match chooseFrom nxt parentIdxs s1 with
            | (none, s2) =>
              placeLoop nxt layout freeCells rest maxObjects objects id s2
            | (some pi, s2) =>
              placeLoop nxt layout freeCells rest maxObjects
                (intoParent schema objects pi id) (id + 1) s2
          else
            match floorPlace nxt layout freeCells schema objects id s1 with
            | (objs', id', s2) =>
              placeLoop nxt layout freeCells rest maxObjects objs' id' s2
        else
          match floorPlace nxt layout freeCells schema objects id s with
          | (objs', id', s1) =>
            placeLoop nxt layout freeCells rest maxObjects objs' id' s1

/-- One of the two minimum-share enforcement loops of `place_objects`
(gen.rs): `k` rounds of choosing a schema uniformly from the filtered
pool (`.iter().filter(..).choose(rng)`, modelled as a single uniform
draw) and floor-placing it under its constraint. -/
def enforceLoop {σ : Type} (nxt : σ → Nat × σ) (layout : Layout)
    (freeCells : List (Nat × Nat)) (pool : List ObjectSchema) :
    Nat → List Object → Nat → σ → List Object × Nat × σ
  | 0, objects, id, s => (objects, id, s)
  | k + 1, objects, id, s =>
    match chooseFrom nxt pool s with
    | (none, s1) => enforceLoop nxt layout freeCells pool k objects id s1
    | (some schema, s1) =>
      match floorPlace nxt layout freeCells schema objects id s1 with
      | (objs', id', s2) => enforceLoop nxt layout freeCells pool k objs' id' s2

/-- `place_objects` (gen.rs): shuffle the room cells (row-major `(x, y)`
pairs), shuffle the schema list, run the per-schema loop, then top up to
25% pickable and 25% capacity-bearing objects (`ceil(total * 0.25)` is
computed in `f32`; `0.25` and these totals are exact there, so it equals
`(total + 3) / 4`). -/
def place_objects (layout : Layout) (schemas : List ObjectSchema)
    (seed : Nat) (max_objects : Nat) : List Object :=
  let freeCells0 : List (Nat × Nat) := (List.range layout.height).flatMap
    (fun y => (List.range layout.width).filterMap (fun x =>
      if layout.cells.getD (y * layout.width + x) OUTSIDE ≥ 0 then some (x, y)
      else none))
  let (freeCells, s1) := shuffle smNext freeCells0 seed
  let (schemaPerm, s2) := shuffle smNext (List.range schemas.length) s1
  let schemaList := schemaPerm.filterMap (fun i => schemas.get? i)
  let (objects1, id1, s3) :=
    placeLoop smNext layout freeCells schemaList max_objects [] 0 s2
  let neededPick := (objects1.length + 3) / 4
  let curPick := (objects1.filter (fun o => o.pickable)).length
  let poolPick := schemas.filter
    (fun t => t.pickable && !(isInsideOfC t.constraint))
  let (objects2, id2, s4) :=
    if curPick < neededPick then
      enforceLoop smNext layout freeCells poolPick (neededPick - curPick)
        objects1 id1 s3
    else (objects1, id1, s3)
  let neededCap := (objects2.length + 3) / 4
  let curCap := (objects2.filter (fun o => decide (o.capacity > 0))).length
  let poolCap := schemas.filter
    (fun t => decide (t.capacity > 0) && !(isInsideOfC t.constraint))
  match (if curCap < neededCap then
      enforceLoop smNext layout freeCells poolCap (neededCap - curCap)
        objects2 id2 s4
    else (objects2, id2, s4)) with
  | (objects3, _, _) => objects3

/-- The layout phases of `generate` (gen.rs): shell, BSP walls, labels,
doors — every phase re-seeds the PRNG from `opts.seed` — then the final
cell grid with the precedence non-shell > wall > door > label.  The
source's `Layout` stops at `cells`; the `room_names` field is filled per
`makeRoomNames` (see its note on the missing naming code). -/
def genLayout (opts : GenOpts) : Layout :=
  let W := opts.width
  let H := opts.height
  let shell := make_concave_shell W H opts.seed
  let (regions, wallMask) := bsp_with_walls shell opts.max_rooms opts.seed W H
  let labels := build_labels regions W H
  let (doorMask, wallMask') := carve_doors labels wallMask shell opts.seed W H
  let cells := (List.range (W * H)).map (fun i =>
    if !(shell.testBit i) then OUTSIDE
    else if wallMask'.testBit i then WALL
    else if doorMask.testBit i then CLOSED_DOOR
    else labels.getD i OUTSIDE)
  { width := W, height := H, cells,
    room_names := makeRoomNames opts.seed regions.length }

/-- `generate` (gen.rs): the layout phases followed by object placement
on the finished layout. -/
def generate (opts : GenOpts) : World :=
  { layout := genLayout opts
    objects := place_objects (genLayout opts) default_schemas opts.seed opts.max_objects }

/-! The simulator (sim.rs). -/

/-- `Agent` (agent.rs). -/
structure Agent where
  x : Nat
  y : Nat
deriving DecidableEq, Repr

/-- `MoveError` (sim.rs) — the richest variant, as lib.rs re-exports it. -/
inductive MoveError where
  | outOfBounds
  | hitObstacle
  | alreadyHolding
  | nothingToPickUp
  | notHolding
  | containerFull
  | invalidTarget
deriving DecidableEq, Repr

/-- `Simulator` (sim.rs): world, agent, optional held object. -/
structure Simulator where
  world : World
  agent : Agent
  holding : Option Object
deriving DecidableEq, Repr

/-- `Simulator::new` (sim.rs): reject a cell-buffer length mismatch, an
out-of-bounds start, or a start on a negative cell. -/
def Simulator.new (world : World) (start_x start_y : Nat) :
    Except String Simulator :=
  if world.layout.cells.length ≠ world.layout.width * world.layout.height then
    .error "Layout cells length does not match dimensions"
  else if start_x ≥ world.layout.width || start_y ≥ world.layout.height then
    .error "Start position out of bounds"
  else if world.layout.cellAt start_x start_y < 0 then
    .error "Start position is not navigable"
  else
    .ok { world, agent := { x := start_x, y := start_y }, holding := none }

/-- `Simulator::try_move` (sim.rs): bounds check, then reject cells in
`OBSTACLES` (`OPEN_DOOR` and room cells are passable). -/
def Simulator.try_move (sim : Simulator) (dx dy : Int) :
    Except MoveError Simulator :=
  let W := sim.world.layout.width
  let H := sim.world.layout.height
  let qx : Int := (sim.agent.x : Int) + dx
  let qy : Int := (sim.agent.y : Int) + dy
  if qx < 0 || qx ≥ (W : Int) || qy < 0 || qy ≥ (H : Int) then
    .error .outOfBounds
  else if OBSTACLES.contains (sim.world.layout.cellAt qx.toNat qy.toNat) then
    .error .hitObstacle
  else
    .ok { sim with agent := { x := qx.toNat, y := qy.toNat } }

/-- `Simulator::up`. -/
def Simulator.up (sim : Simulator) : Except MoveError Simulator :=
  sim.try_move 0 (-1)

/-- `Simulator::down`. -/
def Simulator.down (sim : Simulator) : Except MoveError Simulator :=
  sim.try_move 0 1

/-- `Simulator::left`. -/
def Simulator.left (sim : Simulator) : Except MoveError Simulator :=
  sim.try_move (-1) 0

/-- `Simulator::right`. -/
def Simulator.right (sim : Simulator) : Except MoveError Simulator :=
  sim.try_move 1 0

/-- The flood fill of `Simulator::use_door` (sim.rs), with its explicit
stack.  The source pops `(cx, cy)` and computes
`(cy as usize) * width + (cx as usize)` with **no bounds check on the
pushed neighbours**: a negative coordinate sign-extends to a huge `usize`
and the release-mode index wraps modulo 2^64 (debug mode already panics on
the overflow); any resulting index `≥ cells.len()` makes the `Vec` index
panic.  The panic is modelled as an error; a cell matching the seed value
is rewritten to `changeTo` and its four neighbours pushed (the source
pushes left, right, up, down and pops the most recent first).  Every
matching visit rewrites the cell, so `4·|cells|+2` fuel suffices whenever
`changeTo ≠ cellValue`; exhausted fuel (the source's infinite loop when
they are equal) is also an error. -/
def floodFill (W : Nat) (cells0 : List Int) (cellValue changeTo : Int) :
    Nat → List Int → List (Int × Int) → Except String (List Int)
  | 0, _, _ => .error "fuel exhausted"
  | _ + 1, cells, [] => .ok cells
  | fuel + 1, cells, (cx, cy) :: stack =>
    let cyU := (cy % (U64 : Int)).toNat
    let cxU := (cx % (U64 : Int)).toNat
    let idx := (cyU * W + cxU) % U64
    if idx < cells.length then
      if cells.getD idx OUTSIDE == cellValue then
        floodFill W cells0 cellValue changeTo fuel (cells.set idx changeTo)
          ((cx, cy + 1) :: (cx, cy - 1) :: (cx + 1, cy) :: (cx - 1, cy) :: stack)
      else
        floodFill W cells0 cellValue changeTo fuel cells stack
    else
      .error "panic: index out of bounds"

/-- `Simulator::use_door` (sim.rs): bounds-check the entry coordinate
only, then flood-fill every 4-connected cell equal to the seed cell's
value with `OPEN_DOOR`/`CLOSED_DOOR` according to `open_flag`. -/
def Simulator.use_door (sim : Simulator) (x y : Int) (open_flag : Bool) :
    Except String Simulator :=
  let W := sim.world.layout.width
  let H := sim.world.layout.height
  if x < 0 || x ≥ (W : Int) || y < 0 || y ≥ (H : Int) then
    .error ("Out of bounds")
  else
    let idx := y.toNat * W + x.toNat
    let changeTo := if open_flag then OPEN_DOOR else CLOSED_DOOR
    let cellValue := sim.world.layout.cells.getD idx OUTSIDE
    match floodFill W sim.world.layout.cells cellValue changeTo
        (4 * sim.world.layout.cells.length + 2) sim.world.layout.cells [(x, y)] with
    | .ok cells' =>
      .ok { sim with world :=
        { sim.world with layout := { sim.world.layout with cells := cells' } } }
    | .error e => .error e

/-- `Simulator::pick_up` (sim.rs): error when already holding, else
remove the first pickable object at the agent's cell and hold it.  The
source never touches any container's `contents`. -/
def Simulator.pick_up (sim : Simulator) : Except MoveError Simulator :=
  if sim.holding.isSome then .error .alreadyHolding
  else
    match sim.world.objects.findIdx?
        (fun o => o.x == sim.agent.x && o.y == sim.agent.y && o.pickable) with
    | some pos =>
      match sim.world.objects.get? pos with
      | some obj =>
        .ok { sim with
          world := { sim.world with objects := sim.world.objects.eraseIdx pos },
          holding := some obj }
      | none => .error .nothingToPickUp
    | none => .error .nothingToPickUp

/-- `Simulator::drop` (sim.rs): append the held object at the agent's
current cell — whatever that cell's value is. -/
def Simulator.drop (sim : Simulator) : Except MoveError Simulator :=
  match sim.holding with
  | some obj =>
    .ok { sim with
      world := { sim.world with objects :=
        sim.world.objects ++ [{ obj with x := sim.agent.x, y := sim.agent.y }] },
      holding := none }
  | none => .error .notHolding

/-- `Simulator::place_into` (sim.rs).  The source reads `container.typ`
and matches `crate::object::ObjectType::{Wardrobe, Cupboard} { capacity }`
— but `ObjectType` is defined nowhere in this repository and `Object`
(object.rs) has a plain `capacity` field, no `typ`.  Modelled from the
spec (glossary: a container is an object with `capacity > 0`; §7:
"InvalidTarget — place_into id does not exist or is not a container"):
the capacity is read from `container.capacity` and `capacity = 0` takes
the `_ => InvalidTarget` arm. -/
def Simulator.place_into (sim : Simulator) (target_id : Nat) :
    Except MoveError Simulator :=
  if sim.holding.isNone then .error .notHolding
  else
    match sim.world.objects.enum.find? (fun p => p.2.id == target_id) with
    | none => .error .invalidTarget
    | some (i, container) =>
      if container.capacity == 0 then .error .invalidTarget
      else if container.contents.length ≥ container.capacity then
        .error .containerFull
      else
        match sim.holding with
        | none => .error .notHolding
        | some obj =>
          .ok { sim with
            world := { sim.world with objects :=
              (sim.world.objects.set i
                { container with contents := container.contents ++ [obj.id] }) ++
              [{ obj with x := container.x, y := container.y }] },
            holding := none }

/-- `Simulator::interact` (sim.rs): toggle a door via the flood fill,
reject other negative cells, pick up the first pickable object when
empty-handed (again never touching `contents`), and otherwise try
`place_into` on the first object at the target, falling back to dropping
the held object at the target cell. -/
def Simulator.interact (sim : Simulator) (dx dy : Int) :
    Except String Simulator :=
  let W := sim.world.layout.width
  let H := sim.world.layout.height
  let tx : Int := (sim.agent.x : Int) + dx
  let ty : Int := (sim.agent.y : Int) + dy
  if tx < 0 || tx ≥ (W : Int) || ty < 0 || ty ≥ (H : Int) then
    .error "Out of bounds"
  else
    let cv := sim.world.layout.cellAt tx.toNat ty.toNat
    if cv == CLOSED_DOOR then sim.use_door tx ty true
    else if cv == OPEN_DOOR then sim.use_door tx ty false
    else if cv < 0 then .error "Cannot interact with objects on non-room cell"
    else
      match sim.holding with
      | none =>
        (match sim.world.objects.findIdx?
            (fun o => o.x == tx.toNat && o.y == ty.toNat && o.pickable) with
         | some pos =>
           (match sim.world.objects.get? pos with
            | some obj =>
              .ok { sim with
                world := { sim.world with
                  objects := sim.world.objects.eraseIdx pos },
                holding := some obj }
            | none => .error "Nothing to interact with")
         | none => .error "Nothing to interact with")
      | some obj =>
        let placed :=
          match sim.world.objects.find?
              (fun o => o.x == tx.toNat && o.y == ty.toNat) with
          | some container =>
            (match sim.place_into container.id with
             | .ok sim' => some sim'
             | .error _ => none)
          | none => none
        match placed with
        | some sim' => .ok sim'
        | none =>
          .ok { sim with
            world := { sim.world with objects :=
              sim.world.objects ++ [{ obj with x := tx.toNat, y := ty.toNat }] },
            holding := none }

/-- The simulator operations a caller can issue (sim.rs public methods;
`use_door` is reached through `interact`). -/
inductive Op where
  | up
  | down
  | left
  | right
  | interact (dx dy : Int)
  | pickUp
  | dropHeld
  | placeInto (id : Nat)
deriving DecidableEq, Repr

/-- Apply one operation; a returned error leaves the state unchanged
(every error path of sim.rs returns before mutating). -/
def stepOp (sim : Simulator) : Op → Simulator
  | .up => (sim.up).toOption.getD sim
  | .down => (sim.down).toOption.getD sim
  | .left => (sim.left).toOption.getD sim
  | .right => (sim.right).toOption.getD sim
  | .interact dx dy => (sim.interact dx dy).toOption.getD sim
  | .pickUp => (sim.pick_up).toOption.getD sim
  | .dropHeld => (sim.drop).toOption.getD sim
  | .placeInto id => (sim.place_into id).toOption.getD sim

/-- Run a sequence of operations. -/
def runOps (sim : Simulator) (ops : List Op) : Simulator :=
  ops.foldl stepOp sim

/-! Decidable renderings of the spec's universal layout invariants. -/

/-- The connectivity domain of spec §8.4: indices of cells whose value is
`≥ 0` or a door. -/
def roomDoorIdxs (l : Layout) : List Nat :=
  (List.range (l.width * l.height)).filter (fun i =>
    let c := l.cells.getD i OUTSIDE
    decide (c ≥ 0) || c == CLOSED_DOOR || c == OPEN_DOOR)

/-- The 4-neighbour indices of cell `i` in a `W × H` grid. -/
def neighbors4 (W H i : Nat) : List Nat :=
  (if i % W > 0 then [i - 1] else []) ++
  (if i % W + 1 < W then [i + 1] else []) ++
  (if i / W > 0 then [i - W] else []) ++
  (if i / W + 1 < H then [i + W] else [])

/-- Breadth-first reachability inside a domain of cell indices. -/
def bfsIdx (dom : List Nat) (W H : Nat) :
    Nat → List Nat → List Nat → List Nat
  | 0, _, seen => seen
  | _ + 1, [], seen => seen
  | fuel + 1, i :: q, seen =>
    let ns := (neighbors4 W H i).filter
      (fun j => dom.contains j && !seen.contains j)
    bfsIdx dom W H fuel (q ++ ns) (seen ++ ns)

/-- Decidable rendering of C2: the room-and-door cells form one nonempty
4-connected component (an empty domain has zero components, not one);
when a single component holds every room-and-door cell it in particular
holds a cell of every room id occurring in the layout. -/
def singleComponentCoveringRooms (l : Layout) : Bool :=
  match roomDoorIdxs l with
  | [] => false
  | i :: rest =>
    let dom := i :: rest
    let reach := bfsIdx dom l.width l.height (dom.length + 1) [i] [i]
    dom.all (fun j => reach.contains j)

/-- Is `(x, y)` an in-bounds `CLOSED_DOOR` cell? -/
def doorAt (l : Layout) (x y : Int) : Bool :=
  decide (0 ≤ x) && decide (x < (l.width : Int)) &&
  decide (0 ≤ y) && decide (y < (l.height : Int)) &&
  (l.cells.getD (y.toNat * l.width + x.toNat) OUTSIDE == CLOSED_DOOR)

/-- Length of the consecutive closed-door ray from `(x, y)` inclusive in
direction `(dx, dy)`. -/
def rayLen (l : Layout) : Nat → Int → Int → Int → Int → Nat
  | 0, _, _, _, _ => 0
  | fuel + 1, x, y, dx, dy =>
    if doorAt l x y then 1 + rayLen l fuel (x + dx) (y + dy) dx dy else 0

/-- Length of the maximal horizontal closed-door run through `(x, y)`. -/
def hRunAt (l : Layout) (x y : Nat) : Nat :=
  rayLen l (l.width + 1) x y 1 0 + rayLen l (l.width + 1) ((x : Int) - 1) y (-1) 0

/-- Length of the maximal vertical closed-door run through `(x, y)`. -/
def vRunAt (l : Layout) (x y : Nat) : Nat :=
  rayLen l (l.height + 1) x y 0 1 + rayLen l (l.height + 1) x ((y : Int) - 1) 0 (-1)

/-- Decidable rendering of C6 (read so that a straight doorway is
measured along its own axis): every door cell's maximal runs are `≤ 4` on
both axes and `≥ 2` on at least one.  An isolated door cell — a maximal
run of length 1 in both directions — violates the claim under any
reading. -/
def doorRunsOk (l : Layout) : Bool :=
  (List.range (l.width * l.height)).all (fun i =>
    let x := i % l.width
    let y := i / l.width
    if doorAt l (x : Int) (y : Int) then
      let h := hRunAt l x y
      let v := vRunAt l x y
      decide (h ≤ 4) && decide (v ≤ 4) && (decide (h ≥ 2) || decide (v ≥ 2))
    else true)

/-- Number of cells carrying room id `r`. -/
def roomCellCount (l : Layout) (r : Int) : Nat :=
  (l.cells.filter (fun c => c == r)).length

/-- The room ids occurring in the layout, in first-occurrence order. -/
def occurringRoomIds (l : Layout) : List Int :=
  (l.cells.filter (fun c => decide (c ≥ 0))).dedup

/-- Decidable rendering of C5: every occurring room id labels at least
`MIN_ROOM_AREA_CELLS = 24` cells. -/
def roomAreaFloorOk (l : Layout) : Bool :=
  (occurringRoomIds l).all (fun r => decide (roomCellCount l r ≥ 24))

/-- The schema registered under a name (`default_schemas` lookup). -/
def schemaFor (name : String) : Option ObjectSchema :=
  default_schemas.find? (fun t => t.name == name)

/-- Decidable rendering of C3 evaluated against a given world state:
every object's schema constraint holds at the object's position. -/
def placementLegalIn (w : World) : Bool :=
  w.objects.all (fun o =>
    match schemaFor o.name with
    | some t => t.constraint.check w o.x o.y
    | none => false)

/-- Decidable rendering of C7's claimed invariant: every object sits on a
cell whose value is non-negative (a room cell). -/
def objectsOnRoomCells (w : World) : Bool :=
  w.objects.all (fun o => decide (w.layout.cellAt o.x o.y ≥ 0))

/-- A cell value that is neither `WALL` nor `OUTSIDE` (room or door). -/
def notWallOutside (v : Int) : Bool := !(v == WALL) && !(v == OUTSIDE)

/-- Every object sits on a non-wall, non-outside cell (C7 as amended). -/
def objectsOffWalls (w : World) : Bool :=
  w.objects.all (fun o => notWallOutside (w.layout.cellAt o.x o.y))

/-- The agent stands on a non-wall, non-outside cell. -/
def agentOffWalls (sim : Simulator) : Bool :=
  notWallOutside (sim.world.layout.cellAt sim.agent.x sim.agent.y)

/-- Construct the simulator at a start cell and run an operation list,
returning the final world (`none` when construction fails). -/
def runFromStart (w : World) (sx sy : Nat) (ops : List Op) : Option World :=
  match Simulator.new w sx sy with
  | .ok sim => some (runOps sim ops).world
  | .error _ => none

/-! Concrete worlds used by the counterexamples.  Each `cells…` literal is
the cell buffer of `genLayout` at the stated options, certified below by a
`decide` equation; the object lists are likewise certified outputs of
`place_objects` on that layout. -/

/-- Object literal shorthand for transcribing placement outputs. -/
def objLit (id : Nat) (name : String) (capacity : Nat) (pickable : Bool)
    (x y : Nat) (contents : List Nat) (description : String) : Object :=
  { id, name, capacity, pickable, x, y, contents, description }

/-- Options of the C2 counterexample world: seed 23, 12×10, no objects. -/
def optsC2 : GenOpts := ⟨23, 6, 12, 10, 0⟩

/-- Cell buffer of `genLayout optsC2`. -/
def cellsC2 : List Int := [-1, -1, -1, -1, -1, -1, -1, -1, -1, -1, -1, -1, -1, 0, 0, 0, 0, 0, 0, -1, 1, 1, 1, -1, -1, 0, 0, 0, 0, 0, 0, -1, 1, 1, 1, -1, -1, 0, 0, 0, 0, 0, 0, -1, 1, 1, 1, -1, -1, -1, -1, -1, -3, -3, -3, -1, 1, 1, 1, -1, -1, 2, 2, 2, 2, 2, 2, -3, -1, -1, -1, -1, -1, 2, 2, 2, 2, 2, 2, -1, -2, -2, -2, -2, -1, 2, 2, 2, 2, 2, 2, -1, -2, -2, -2, -2, -1, 2, 2, 2, 2, 2, 2, -1, -2, -2, -2, -2, -1, -1, -1, -1, -1, -1, -1, -1, -2, -2, -2, -2]

/-- `genLayout optsC2` as a literal: rooms 0 and 2 are joined by the
doorway at (4..6, 4), but room 1 (columns 8–10, rows 1–4) has no door —
its only adjacent door cell (7, 5) touches room 2 on the left and walls
elsewhere, so the room-and-door cells split into two components. -/
def layC2 : Layout :=
  { width := 12, height := 10, cells := cellsC2,
    room_names := ["Bathroom", "Study", "Hallway"] }

/-- Options of the connected instance used for the amended C2: seed 1,
12×8, no objects. -/
def optsC2g : GenOpts := ⟨1, 6, 12, 8, 0⟩

/-- Cell buffer of `genLayout optsC2g`. -/
def cellsC2g : List Int := [-1, -1, -1, -1, -1, -1, -1, -1, -1, -1, -1, -1, -1, 1, -3, 2, 2, 2, -3, 0, 0, 0, 0, -1, -1, 1, -3, 2, 2, 2, -3, 0, 0, 0, 0, -1, -1, 1, -1, 2, 2, 2, -3, -1, -1, -1, -1, -1, -1, 1, -1, 2, 2, 2, -1, -2, -2, -2, -2, -2, -1, 1, -1, 2, 2, 2, -1, -2, -2, -2, -2, -2, -1, 1, -1, 2, 2, 2, -1, -2, -2, -2, -2, -2, -1, -1, -1, -1, -1, -1, -1, -2, -2, -2, -2, -2]

/-- `genLayout optsC2g` as a literal: three rooms, all reachable. -/
def layC2g : Layout :=
  { width := 12, height := 8, cells := cellsC2g,
    room_names := ["Dining Room", "Bedroom", "Hallway"] }

/-- Options of the C5 counterexample world: seed 0, 12×8, no objects. -/
def optsC5 : GenOpts := ⟨0, 6, 12, 8, 0⟩

/-- Cell buffer of `genLayout optsC5`. -/
def cellsC5 : List Int := [-1, -1, -1, -1, -1, -1, -1, -1, -1, -1, -1, -1, -1, 1, 1, 1, 1, 1, 1, 1, 1, 1, 1, -1, -1, 1, 1, 1, 1, 1, 1, 1, 1, 1, 1, -1, -1, 1, 1, 1, 1, 1, 1, 1, 1, 1, 1, -1, -1, -1, -1, -1, -3, -3, -3, -1, -1, -1, -1, -1, -2, -2, -2, -2, -1, 0, 0, 0, 0, 0, 0, -1, -2, -2, -2, -2, -1, 0, 0, 0, 0, 0, 0, -1, -2, -2, -2, -2, -1, -1, -1, -1, -1, -1, -1, -1]

/-- `genLayout optsC5` as a literal: room id 0 labels only the 12 cells of
the 2×6 block at rows 5–6, columns 5–10. -/
def layC5 : Layout :=
  { width := 12, height := 8, cells := cellsC5,
    room_names := ["Guest Room", "Bathroom"] }

/-- Options of the C6 counterexample world: seed 11, 12×9, no objects. -/
def optsC6 : GenOpts := ⟨11, 6, 12, 9, 0⟩

/-- Cell buffer of `genLayout optsC6`. -/
def cellsC6 : List Int := [-1, -1, -1, -1, -1, -1, -1, -1, -1, -2, -2, -2, -1, 2, 2, 2, -1, 0, 0, 0, -1, -2, -2, -2, -1, 2, 2, 2, -3, 0, 0, 0, -1, -2, -2, -2, -1, 2, 2, 2, -3, 0, 0, 0, -1, -2, -2, -2, -1, 2, 2, 2, -1, 0, 0, 0, -1, -1, -1, -1, -1, 2, 2, 2, -1, 0, 0, 0, 0, 0, 0, -1, -1, 2, 2, 2, -1, -1, -1, -1, -1, -1, -1, -1, -1, 2, 2, 2, -3, 1, 1, 1, 1, 1, 1, -1, -1, -1, -1, -1, -1, -1, -1, -1, -1, -1, -1, -1]

/-- `genLayout optsC6` as a literal: the door cell at (4, 7) is isolated —
its horizontal and vertical maximal runs both have length 1. -/
def layC6 : Layout :=
  { width := 12, height := 9, cells := cellsC6,
    room_names := ["Kitchen", "Playroom", "Hallway"] }

/-- Options of the world shared by the C3 and C7 counterexamples:
seed 1, 12×9, up to 12 objects. -/
def optsC37 : GenOpts := ⟨1, 6, 12, 9, 12⟩

/-- Cell buffer of `genLayout optsC37`. -/
def cellsC37 : List Int := [-1, -1, -1, -1, -1, -1, -1, -1, -1, -1, -1, -1, -1, 1, 1, 1, 1, 1, 1, 1, 1, 1, 1, -1, -1, 1, 1, 1, 1, 1, 1, 1, 1, 1, 1, -1, -1, 1, 1, 1, 1, 1, 1, 1, 1, 1, 1, -1, -1, -1, -3, -3, -3, -3, -1, -1, -1, -1, -1, -1, -1, 0, 0, 0, 0, 0, -1, -2, -2, -2, -2, -2, -1, 0, 0, 0, 0, 0, -1, -2, -2, -2, -2, -2, -1, 0, 0, 0, 0, 0, -1, -2, -2, -2, -2, -2, -1, -1, -1, -1, -1, -1, -1, -2, -2, -2, -2, -2]

/-- `genLayout optsC37` as a literal: room 1 ("Bedroom") on rows 1–3 and
room 0 ("Dining Room") on rows 5–7, joined by the doorway (2..5, 4). -/
def layC37 : Layout :=
  { width := 12, height := 9, cells := cellsC37,
    room_names := ["Dining Room", "Bedroom"] }

/-- `place_objects layC37 default_schemas 1 12` as a literal.  Object 5,
a PetFoodBowl, was handed to the random-parent branch: it sits inside the
Nightstand (object 1) at (10, 1) in the "Bedroom", where its constraint
`InRoomNamed ["Kitchen", "Dining Room"]` is false. -/
def objsC37 : List Object :=
  [objLit 0 "Cupboard" 20 false 1 5 [2] "A kitchen cupboard.",
   objLit 1 "Nightstand" 5 false 10 1 [4, 5, 8, 9, 10] "A nightstand.",
   objLit 2 "BreadLoaf" 0 true 1 5 [] "A loaf of bread.",
   objLit 3 "Rug" 0 true 5 5 [] "A small rug.",
   objLit 4 "Whisk" 0 true 10 1 [] "A whisk for mixing ingredients.",
   objLit 5 "PetFoodBowl" 10 true 10 1 [7] "A bowl for pet food or water.",
   objLit 6 "RottenOnion" 0 true 1 5 [] "An onion with a slimy, foul-smelling rot core.",
   objLit 7 "RottenBanana" 0 true 10 1 [] "A banana blackened with overripeness and rot.",
   objLit 8 "Watch" 0 true 10 1 [] "A wristwatch.",
   objLit 9 "Cushion" 0 true 10 1 [] "A throw cushion.",
   objLit 10 "Sponge" 0 true 10 1 [] "A cleaning sponge.",
   objLit 11 "VacuumCleaner" 0 false 5 6 [] "An upright vacuum cleaner."]

/-- `generate optsC37` as a literal world. -/
def worldC37 : World := { layout := layC37, objects := objsC37 }

/-- The operation script of the C7 counterexample, from start (10, 1):
pick up the Whisk, walk to (2, 3), open the doorway below, step onto the
open door cell (2, 4), and drop the Whisk there. -/
def opsC7 : List Op :=
  [.pickUp, .left, .left, .left, .left, .left, .left, .left, .left,
   .down, .down, .interact 0 1, .down, .dropHeld]

/-- Layout of the crafted C4 state: a 3×3 single-room grid. -/
def layC4 : Layout :=
  { width := 3, height := 3, cells := [0, 0, 0, 0, 0, 0, 0, 0, 0],
    room_names := ["Kitchen"] }

/-- A Drawer at (1, 1) whose contents list the Spatula's id 1 — the shape
`place_objects` produces for `InsideOf` placements. -/
def drawerC4 : Object := objLit 0 "Drawer" 15 false 1 1 [1] "A sliding drawer unit."

/-- The contained pickable Spatula at the Drawer's cell. -/
def spatulaC4 : Object := objLit 1 "Spatula" 0 true 1 1 [] "A spatula for flipping food."

/-- Simulator state with the agent on the Drawer/Spatula cell, holding
nothing. -/
def simC4 : Simulator :=
  { world := { layout := layC4, objects := [drawerC4, spatulaC4] },
    agent := ⟨1, 1⟩, holding := none }

/-- A 2×2 world whose cells are all `OUTSIDE` — the equal-value region of
every cell touches the grid border. -/
def layC10 : Layout :=
  { width := 2, height := 2, cells := [OUTSIDE, OUTSIDE, OUTSIDE, OUTSIDE], room_names := [] }

/-- Simulator over the all-`OUTSIDE` world (the agent is irrelevant to
`use_door`). -/
def simC10 : Simulator :=
  { world := { layout := layC10, objects := [] }, agent := ⟨0, 0⟩, holding := none }

/-- A 1×1 single-room world with one container (TrashCan, capacity 20,
not a Wardrobe or Cupboard) for exercising `place_into`. -/
def trashCanC8 : Object := objLit 0 "TrashCan" 20 false 0 0 [] "A trash can."

/-- The held object of the C8 witness state. -/
def appleC8 : Object := objLit 1 "Apple" 0 true 0 0 [] "A fresh red apple."

/-- The 1×1 layout of the C8 state. -/
def layC8 : Layout :=
  { width := 1, height := 1, cells := [0], room_names := ["Kitchen"] }

/-- Simulator state holding the Apple over the TrashCan's cell. -/
def simC8 : Simulator :=
  { world := { layout := layC8, objects := [trashCanC8] },
    agent := ⟨0, 0⟩, holding := some appleC8 }

/-- A container already holding two ids against a capacity of 1. -/
def jarC8 : Object := objLit 0 "Jar" 1 false 0 0 [5, 6] "A small jar."

/-- Simulator state holding the Apple over the overfull Jar. -/
def simC8b : Simulator :=
  { world := { layout := layC8, objects := [jarC8] },
    agent := ⟨0, 0⟩, holding := some appleC8 }

/-- A schema with the plain `InRoom` constraint, used to instantiate the
step-level placement properties. -/
def rugSchema : ObjectSchema := mkSchema "Rug" 0 false .inRoom .inRoom "A rug."

/-- The full 12×8 rectangle as a BSP region (96 cells, every bit set). -/
def rFull96 : Region := Region.ofMask (2 ^ 96 - 1) 96 12

/-- The simulator state `Simulator.new (generate optsC37) 10 1` returns. -/
def simStart37 : Simulator :=
  { world := worldC37, agent := { x := 10, y := 1 }, holding := none }

/-! Certified snapshots: each generated layout (and, for `optsC37`, the
object list) equals its literal transcription. -/

set_option maxHeartbeats 8000000 in
theorem genLayC2_eq : genLayout optsC2 = layC2 := by decide

theorem generate_layC2 : (generate optsC2).layout = layC2 :=
  (rfl : (generate optsC2).layout = genLayout optsC2).trans genLayC2_eq

set_option maxHeartbeats 8000000 in
theorem genLayC2g_eq : genLayout optsC2g = layC2g := by decide

theorem generate_layC2g : (generate optsC2g).layout = layC2g :=
  (rfl : (generate optsC2g).layout = genLayout optsC2g).trans genLayC2g_eq

set_option maxHeartbeats 8000000 in
theorem genLayC5_eq : genLayout optsC5 = layC5 := by decide

theorem generate_layC5 : (generate optsC5).layout = layC5 :=
  (rfl : (generate optsC5).layout = genLayout optsC5).trans genLayC5_eq

set_option maxHeartbeats 8000000 in
theorem genLayC6_eq : genLayout optsC6 = layC6 := by decide

theorem generate_layC6 : (generate optsC6).layout = layC6 :=
  (rfl : (generate optsC6).layout = genLayout optsC6).trans genLayC6_eq

set_option maxHeartbeats 8000000 in
theorem genLayC37_eq : genLayout optsC37 = layC37 := by decide

theorem generate_layC37 : (generate optsC37).layout = layC37 :=
  (rfl : (generate optsC37).layout = genLayout optsC37).trans genLayC37_eq

set_option maxHeartbeats 8000000 in
theorem objsC37_eq :
    place_objects layC37 default_schemas optsC37.seed optsC37.max_objects = objsC37 := by
  decide

/-- `generate optsC37` evaluates to the literal world `worldC37`. -/
theorem generate_worldC37 : generate optsC37 = worldC37 := by
  unfold generate worldC37
  rw [genLayC37_eq, objsC37_eq]

/-! Structural lemmas about the random adapters. -/

/-- A `gen_range(lo..=hi)` draw lands in the inclusive range. -/
theorem genRange_bounds (σ : Type) (nxt : σ → Nat × σ) (lo hi : Nat) (s : σ)
    (v : Nat) (s' : σ) (h : genRange nxt lo hi s = (v, s')) (hle : lo ≤ hi) :
    lo ≤ v ∧ v ≤ hi := by
  rcases hn : nxt s with ⟨n, s1⟩
  simp only [genRange, hn] at h
  injection h with h1 h2
  subst h1
  have hpos : 0 < hi + 1 - lo := by omega
  have := Nat.mod_lt n hpos
  omega

/-- `genRange_bounds` stated on the projections of the drawn pair. -/
theorem genRange_fst_le (σ : Type) (nxt : σ → Nat × σ) (lo hi : Nat) (s : σ)
    (hle : lo ≤ hi) :
    lo ≤ (genRange nxt lo hi s).1 ∧ (genRange nxt lo hi s).1 ≤ hi :=
  genRange_bounds σ nxt lo hi s (genRange nxt lo hi s).1
    (genRange nxt lo hi s).2 rfl hle

/-- `choose` returns an element of the sequence. -/
theorem chooseFrom_mem (σ : Type) (α : Type) (nxt : σ → Nat × σ)
    (l : List α) (s : σ) (a : α) (s' : σ)
    (h : chooseFrom nxt l s = (some a, s')) : a ∈ l := by
  cases l with
  | nil => simp [chooseFrom] at h
  | cons x xs =>
    simp only [chooseFrom] at h
    injection h with h1 h2
    exact List.get?_mem h1

/-- A swap permutes in place: members come from the original list. -/
theorem listSwap_mem (α : Type) (l : List α) (i j : Nat) (a : α)
    (h : a ∈ listSwap l i j) : a ∈ l := by
  simp only [listSwap] at h
  split at h
  · rename_i b c hi hj
    rcases List.mem_or_eq_of_mem_set h with h1 | h1
    · rcases List.mem_or_eq_of_mem_set h1 with h2 | h2
      · exact h2
      · subst h2; exact List.get?_mem hj
    · subst h1; exact List.get?_mem hi
  · exact h

/-- The Fisher–Yates tail permutes in place. -/
theorem shuffleGo_mem (σ : Type) (α : Type) (nxt : σ → Nat × σ) :
    ∀ (n : Nat) (l : List α) (s : σ) (l' : List α) (s' : σ),
      shuffleGo nxt n l s = (l', s') → ∀ a ∈ l', a ∈ l := by
  intro n
  induction n with
  | zero =>
    intro l s l' s' h a ha
    simp only [shuffleGo] at h
    injection h with h1 h2
    subst h1; exact ha
  | succ i ih =>
    intro l s l' s' h a ha
    simp only [shuffleGo] at h
    exact listSwap_mem α l (i + 1) ((nxt s).1 % (i + 2)) a (ih _ _ _ _ h a ha)

/-- `shuffle` permutes in place. -/
theorem shuffle_mem (σ : Type) (α : Type) (nxt : σ → Nat × σ)
    (l : List α) (s : σ) (l' : List α) (s' : σ)
    (h : shuffle nxt l s = (l', s')) : ∀ a ∈ l', a ∈ l := by
  simp only [shuffle] at h
  split at h
  · injection h with h1 h2; subst h1; exact fun a ha => ha
  · rename_i n heq
    exact shuffleGo_mem σ α nxt n l s l' s' h

/-- Sorted insertion grows the length by one. -/
theorem insBy_length (α : Type) (le : α → α → Bool) (a : α) :
    ∀ l : List α, (insBy le a l).length = l.length + 1
  | [] => rfl
  | b :: rest => by
    simp only [insBy]
    split
    · simp
    · simp [insBy_length α le a rest]

/-- The insertion sort preserves the length. -/
theorem sortByB_length (α : Type) (le : α → α → Bool) (l : List α) :
    (sortByB le l).length = l.length := by
  induction l with
  | nil => rfl
  | cons a rest ih =>
    simp only [sortByB, List.foldr] at ih ⊢
    rw [insBy_length, ih, List.length_cons]

/-- A `drop`-then-`take` slice realises its full width when it fits. -/
theorem drop_take_slice_length (α : Type) (l : List α) (start w : Nat)
    (hw : w ≤ l.length) (hs : start ≤ l.length - w) :
    ((l.drop start).take w).length = w := by
  simp only [List.length_take, List.length_drop]
  omega

/-! Step-level placement lemmas (gen.rs `place_objects`). -/

/-- Floor placement either leaves the object list unchanged (no
candidate) or appends one object at a free cell satisfying the schema's
constraint against the object list at the moment of the draw. -/
theorem floorPlace_cases (σ : Type) (nxt : σ → Nat × σ) (layout : Layout)
    (freeCells : List (Nat × Nat)) (schema : ObjectSchema)
    (objects : List Object) (id : Nat) (s : σ) :
    (floorPlace nxt layout freeCells schema objects id s).1 = objects ∨
    ∃ c, c ∈ freeCells ∧
      schema.constraint.check { layout := layout, objects := objects } c.1 c.2 = true ∧
      (floorPlace nxt layout freeCells schema objects id s).1 =
        objects ++ [mkObject schema id c.1 c.2] := by
  rcases hc : chooseFrom nxt
      (freeCells.filter
        (fun c => schema.constraint.check ⟨layout, objects⟩ c.1 c.2)) s with ⟨oc, s'⟩
  cases oc with
  | none => left; simp [floorPlace, hc]
  | some c =>
    right
    have hmem := chooseFrom_mem σ (Nat × Nat) nxt _ s c s' hc
    rw [List.mem_filter] at hmem
    exact ⟨c, hmem.1, hmem.2, by simp [floorPlace, hc]⟩

/-- Container placement: with the parent resolved, the parent's
`contents` gains the child id and the child is appended at the parent's
coordinates. -/
theorem intoParent_eq (schema : ObjectSchema) (objects : List Object)
    (pi id : Nat) (parent : Object) (hp : objects.get? pi = some parent) :
    intoParent schema objects pi id =
      (objects.set pi { parent with contents := parent.contents ++ [id] }) ++
        [mkObject schema id parent.x parent.y] := by
  unfold intoParent
  rw [hp]

/-- Container placement keeps every object on a room cell. -/
theorem intoParent_onRoom (layout : Layout) (schema : ObjectSchema)
    (objects : List Object) (pi id : Nat)
    (hObjs : ∀ o ∈ objects, layout.cellAt o.x o.y ≥ 0) :
    ∀ o ∈ intoParent schema objects pi id, layout.cellAt o.x o.y ≥ 0 := by
  intro o ho
  rcases hp : objects.get? pi with _ | parent
  · unfold intoParent at ho
    rw [hp] at ho
    exact hObjs o ho
  · rw [intoParent_eq schema objects pi id parent hp] at ho
    have hparent := hObjs parent (List.get?_mem hp)
    rcases List.mem_append.mp ho with h1 | h1
    · rcases List.mem_or_eq_of_mem_set h1 with h2 | h2
      · exact hObjs o h2
      · subst h2; exact hparent
    · rw [List.mem_singleton] at h1
      subst h1; exact hparent

/-- Floor placement keeps every object on a room cell when every free
cell is a room cell. -/
theorem floorPlace_onRoom (σ : Type) (nxt : σ → Nat × σ) (layout : Layout)
    (freeCells : List (Nat × Nat)) (schema : ObjectSchema)
    (objects : List Object) (id : Nat) (s : σ) (res : List Object × Nat × σ)
    (h : floorPlace nxt layout freeCells schema objects id s = res)
    (hFree : ∀ c ∈ freeCells, layout.cellAt c.1 c.2 ≥ 0)
    (hObjs : ∀ o ∈ objects, layout.cellAt o.x o.y ≥ 0) :
    ∀ o ∈ res.1, layout.cellAt o.x o.y ≥ 0 := by
  intro o ho
  rw [← h] at ho
  rcases floorPlace_cases σ nxt layout freeCells schema objects id s with h1 | ⟨c, hc1, _, h1⟩
  · rw [h1] at ho; exact hObjs o ho
  · rw [h1] at ho
    rcases List.mem_append.mp ho with h2 | h2
    · exact hObjs o h2
    · rw [List.mem_singleton] at h2
      subst h2; exact hFree c hc1

/-- The per-schema placement loop keeps every object on a room cell. -/
theorem placeLoop_onRoom (σ : Type) (nxt : σ → Nat × σ) (layout : Layout)
    (freeCells : List (Nat × Nat))
    (hFree : ∀ c ∈ freeCells, layout.cellAt c.1 c.2 ≥ 0) :
    ∀ (schemas : List ObjectSchema) (maxObjects : Nat) (objects : List Object)
      (id : Nat) (s : σ) (res : List Object × Nat × σ),
      placeLoop nxt layout freeCells schemas maxObjects objects id s = res →
      (∀ o ∈ objects, layout.cellAt o.x o.y ≥ 0) →
      ∀ o ∈ res.1, layout.cellAt o.x o.y ≥ 0 := by
  intro schemas
  induction schemas with
  | nil =>
    intro m objects id s res h hObjs o ho
    simp only [placeLoop] at h
    subst h; exact hObjs o ho
  | cons schema rest ih =>
    intro m objects id s res h hObjs o ho
    simp only [placeLoop] at h
    split at h
    · subst h; exact hObjs o ho
    · split at h
      · -- `InsideOf` schema: optional container placement
        split at h
        · exact ih m objects id _ res h hObjs o ho
        · rename_i pi s1 heq
          exact ih m _ (id + 1) s1 res h
            (intoParent_onRoom layout schema objects pi id hObjs) o ho
      · -- any other schema
        split at h
        · -- pickable with a free container: fair coin
          split at h
          · -- heads: uniformly chosen parent, no constraint check
            split at h
            · exact ih m objects id _ res h hObjs o ho
            · rename_i pi s2 heq2
              exact ih m _ (id + 1) s2 res h
                (intoParent_onRoom layout schema objects pi id hObjs) o ho
          · -- tails: floor placement
            exact ih m _ _ _ res h
              (floorPlace_onRoom σ nxt layout freeCells schema objects id _ _
                rfl hFree hObjs) o ho
        · exact ih m _ _ _ res h
            (floorPlace_onRoom σ nxt layout freeCells schema objects id s _
              rfl hFree hObjs) o ho

/-- The minimum-share enforcement loop keeps every object on a room
cell. -/
theorem enforceLoop_onRoom (σ : Type) (nxt : σ → Nat × σ) (layout : Layout)
    (freeCells : List (Nat × Nat)) (pool : List ObjectSchema)
    (hFree : ∀ c ∈ freeCells, layout.cellAt c.1 c.2 ≥ 0) :
    ∀ (k : Nat) (objects : List Object) (id : Nat) (s : σ)
      (res : List Object × Nat × σ),
      enforceLoop nxt layout freeCells pool k objects id s = res →
      (∀ o ∈ objects, layout.cellAt o.x o.y ≥ 0) →
      ∀ o ∈ res.1, layout.cellAt o.x o.y ≥ 0 := by
  intro k
  induction k with
  | zero =>
    intro objects id s res h hObjs o ho
    simp only [enforceLoop] at h
    subst h; exact hObjs o ho
  | succ k ih =>
    intro objects id s res h hObjs o ho
    simp only [enforceLoop] at h
    split at h
    · exact ih objects id _ res h hObjs o ho
    · rename_i schema1 s1 heq
      exact ih _ _ _ res h
        (floorPlace_onRoom σ nxt layout freeCells schema1 objects id s1 _
          rfl hFree hObjs) o ho

/-- `place_objects` puts every object on a room cell of the layout it
places on. -/
theorem place_objects_onRoom (layout : Layout) (schemas : List ObjectSchema)
    (seed maxObjects : Nat) :
    ∀ o ∈ place_objects layout schemas seed maxObjects,
      layout.cellAt o.x o.y ≥ 0 := by
  intro o ho
  simp only [place_objects] at ho
  generalize hSH1 : shuffle smNext ((List.range layout.height).flatMap fun y =>
      List.filterMap
        (fun x =>
          if layout.cells.getD (y * layout.width + x) OUTSIDE ≥ 0 then some (x, y)
          else none)
        (List.range layout.width)) seed = SH1 at ho
  have hFree : ∀ c ∈ SH1.1, layout.cellAt c.1 c.2 ≥ 0 := by
    intro c hc
    have hc0 := shuffle_mem Nat (Nat × Nat) smNext _ seed SH1.1 SH1.2
      (by rw [hSH1]) c hc
    rw [List.mem_flatMap] at hc0
    obtain ⟨y, hy, hcy⟩ := hc0
    rw [List.mem_filterMap] at hcy
    obtain ⟨x, hx, hxeq⟩ := hcy
    split at hxeq
    · rename_i hcell
      injection hxeq with hceq
      subst hceq
      simpa [Layout.cellAt] using hcell
    · exact Option.noConfusion hxeq
  generalize hSH2 : shuffle smNext (List.range schemas.length) SH1.2 = SH2 at ho
  generalize hPL : placeLoop smNext layout SH1.1
      (List.filterMap (fun i => schemas.get? i) SH2.1) maxObjects [] 0 SH2.2 =
      PL at ho
  have hO1 : ∀ o ∈ PL.1, layout.cellAt o.x o.y ≥ 0 :=
    placeLoop_onRoom Nat smNext layout SH1.1 hFree _ maxObjects [] 0 SH2.2
      PL hPL (by intro o ho; cases ho)
  generalize hT2 : (if (List.filter (fun o => o.pickable) PL.1).length <
        (PL.1.length + 3) / 4 then
      enforceLoop smNext layout SH1.1
        (List.filter (fun t => t.pickable && !isInsideOfC t.constraint) schemas)
        ((PL.1.length + 3) / 4 -
          (List.filter (fun o => o.pickable) PL.1).length)
        PL.1 PL.2.1 PL.2.2
    else (PL.1, PL.2.1, PL.2.2)) = T2 at ho
  have hO2 : ∀ o ∈ T2.1, layout.cellAt o.x o.y ≥ 0 := by
    rw [← hT2]
    split
    · exact fun o ho => enforceLoop_onRoom Nat smNext layout SH1.1 _ hFree _
        PL.1 PL.2.1 PL.2.2 _ rfl hO1 o ho
    · exact hO1
  generalize hT3 : (if (List.filter (fun o => decide (o.capacity > 0)) T2.1).length <
        (T2.1.length + 3) / 4 then
      enforceLoop smNext layout SH1.1
        (List.filter (fun t => decide (t.capacity > 0) && !isInsideOfC t.constraint)
          schemas)
        ((T2.1.length + 3) / 4 -
          (List.filter (fun o => decide (o.capacity > 0)) T2.1).length)
        T2.1 T2.2.1 T2.2.2
    else (T2.1, T2.2.1, T2.2.2)) = T3 at ho
  have hO3 : ∀ o ∈ T3.1, layout.cellAt o.x o.y ≥ 0 := by
    rw [← hT3]
    split
    · exact fun o ho => enforceLoop_onRoom Nat smNext layout SH1.1 _ hFree _
        T2.1 T2.2.1 T2.2.2 _ rfl hO2 o ho
    · exact hO2
  exact hO3 o ho

/-! Simulator-step preservation of the off-walls invariant. -/

/-- Non-negative cells are neither wall nor outside. -/
theorem notWallOutside_of_nonneg (v : Int) (h : 0 ≤ v) :
    notWallOutside v = true := by
  simp only [notWallOutside, WALL, OUTSIDE, Bool.and_eq_true, Bool.not_eq_true',
    beq_eq_false_iff_ne, ne_eq]
  omega

/-- Both door values are neither wall nor outside. -/
theorem notWallOutside_door (b : Bool) :
    notWallOutside (if b then OPEN_DOOR else CLOSED_DOOR) = true := by
  cases b <;> rfl

/-- An entry of a list after `set` is the old entry or the written value. -/
theorem getD_set_cases : ∀ (l : List Int) (j i : Nat) (a d : Int),
    (l.set j a).getD i d = l.getD i d ∨ (l.set j a).getD i d = a
  | [], _, _, _, _ => Or.inl rfl
  | _ :: _, 0, 0, _, _ => Or.inr rfl
  | _ :: _, 0, _ + 1, _, _ => Or.inl rfl
  | _ :: _, _ + 1, 0, _, _ => Or.inl rfl
  | _ :: xs, j + 1, i + 1, a, d => getD_set_cases xs j i a d

/-- Chain a pointwise old-or-written fact through one more `set`. -/
theorem getD_of_set_chain (cells cells2 : List Int) (j : Nat) (ct : Int)
    (i : Nat) (d : Int)
    (h : cells2.getD i d = (cells.set j ct).getD i d ∨ cells2.getD i d = ct) :
    cells2.getD i d = cells.getD i d ∨ cells2.getD i d = ct := by
  rcases h with h1 | h1
  · rcases getD_set_cases cells j i ct d with h2 | h2
    · exact Or.inl (h1.trans h2)
    · exact Or.inr (h1.trans h2)
  · exact Or.inr h1

/-- A successful flood fill only ever writes `ct`: pointwise, the new
buffer holds the old entry or `ct`. -/
theorem floodFill_pointwise (W : Nat) (cells0 : List Int) (cv ct : Int) :
    ∀ (fuel : Nat) (cells : List Int) (stack : List (Int × Int))
      (cells2 : List Int),
      floodFill W cells0 cv ct fuel cells stack = .ok cells2 →
      ∀ (i : Nat) (d : Int),
        cells2.getD i d = cells.getD i d ∨ cells2.getD i d = ct := by
  intro fuel
  induction fuel with
  | zero => intro cells stack cells2 h; simp [floodFill] at h
  | succ f ih =>
    intro cells stack cells2 h i d
    cases stack with
    | nil =>
      simp only [floodFill] at h
      injection h with h1
      subst h1; exact Or.inl rfl
    | cons p rest =>
      obtain ⟨cx, cy⟩ := p
      simp only [floodFill] at h
      split at h
      · split at h
        · exact getD_of_set_chain cells cells2 _ ct i d (ih _ _ _ h i d)
        · exact ih _ _ _ h i d
      · exact Except.noConfusion h

/-- `use_door` preserves the off-walls invariant: it only rewrites cells
to door values and touches nothing else. -/
theorem use_door_pres (sim sim2 : Simulator) (x y : Int) (b : Bool)
    (hO : objectsOffWalls sim.world = true) (hA : agentOffWalls sim = true)
    (h : sim.use_door x y b = .ok sim2) :
    objectsOffWalls sim2.world = true ∧ agentOffWalls sim2 = true := by
  simp only [Simulator.use_door] at h
  split at h
  · exact Except.noConfusion h
  · split at h
    · rename_i cells2 heq
      injection h with h1
      subst h1
      have hpt := floodFill_pointwise sim.world.layout.width
        sim.world.layout.cells _ _ _ _ _ _ heq
      constructor
      · simp only [objectsOffWalls, List.all_eq_true, Layout.cellAt] at hO ⊢
        intro o ho
        rcases hpt (o.y * sim.world.layout.width + o.x) OUTSIDE with h2 | h2
        · rw [h2]; exact hO o ho
        · rw [h2]; exact notWallOutside_door b
      · simp only [agentOffWalls, Layout.cellAt] at hA ⊢
        rcases hpt (sim.agent.y * sim.world.layout.width + sim.agent.x)
            OUTSIDE with h2 | h2
        · rw [h2]; exact hA
        · rw [h2]; exact notWallOutside_door b
    · exact Except.noConfusion h

/-- A cell rejected by the `OBSTACLES` membership test is neither wall
nor outside. -/
theorem notWallOutside_of_not_obstacle (v : Int)
    (h : ¬(OBSTACLES.contains v = true)) : notWallOutside v = true := by
  simp only [OBSTACLES, List.contains_cons, List.contains_nil,
    Bool.or_eq_true, beq_iff_eq, not_or] at h
  simp only [notWallOutside, Bool.and_eq_true, Bool.not_eq_true',
    beq_eq_false_iff_ne, ne_eq]
  exact ⟨h.1, h.2.1⟩

/-- `try_move` preserves the invariant: the destination cell passed the
`OBSTACLES` check, so it is neither wall nor outside. -/
theorem try_move_pres (sim sim2 : Simulator) (dx dy : Int)
    (hO : objectsOffWalls sim.world = true)
    (h : sim.try_move dx dy = .ok sim2) :
    objectsOffWalls sim2.world = true ∧ agentOffWalls sim2 = true := by
  simp only [Simulator.try_move] at h
  split at h
  · exact Except.noConfusion h
  · split at h
    · exact Except.noConfusion h
    · rename_i hb hc
      injection h with h1
      subst h1
      refine ⟨hO, ?_⟩
      simpa [agentOffWalls] using notWallOutside_of_not_obstacle _ hc

/-- `pick_up` preserves the invariant: it only removes an object. -/
theorem pick_up_pres (sim sim2 : Simulator)
    (hO : objectsOffWalls sim.world = true) (hA : agentOffWalls sim = true)
    (h : sim.pick_up = .ok sim2) :
    objectsOffWalls sim2.world = true ∧ agentOffWalls sim2 = true := by
  simp only [Simulator.pick_up] at h
  split at h
  · exact Except.noConfusion h
  · split at h
    · split at h
      · rename_i pos hfind obj hget
        injection h with h1
        subst h1
        refine ⟨?_, hA⟩
        simp only [objectsOffWalls, List.all_eq_true] at hO ⊢
        intro o ho
        exact hO o (List.eraseIdx_subset _ _ ho)
      · exact Except.noConfusion h
    · exact Except.noConfusion h

/-- `drop` preserves the invariant: the dropped object lands on the
agent's cell, which satisfies the agent invariant. -/
theorem drop_pres (sim sim2 : Simulator)
    (hO : objectsOffWalls sim.world = true) (hA : agentOffWalls sim = true)
    (h : sim.drop = .ok sim2) :
    objectsOffWalls sim2.world = true ∧ agentOffWalls sim2 = true := by
  simp only [Simulator.drop] at h
  split at h
  · rename_i obj hhold
    injection h with h1
    subst h1
    refine ⟨?_, hA⟩
    simp only [objectsOffWalls, List.all_eq_true] at hO ⊢
    intro o ho
    rcases List.mem_append.mp ho with h1 | h1
    · exact hO o h1
    · rw [List.mem_singleton] at h1
      subst h1
      simpa [agentOffWalls, Layout.cellAt] using hA
  · exact Except.noConfusion h

/-- A found entry of an enumerated list is a member. -/
theorem enumFrom_find?_mem (α : Type) (p : Nat × α → Bool) :
    ∀ (l : List α) (k i : Nat) (a : α),
      (List.enumFrom k l).find? p = some (i, a) → a ∈ l := by
  intro l
  induction l with
  | nil => intro k i a h; simp [List.enumFrom, List.find?] at h
  | cons x xs ih =>
    intro k i a h
    simp only [List.enumFrom, List.find?] at h
    split at h
    · injection h with h1
      injection h1 with h2 h3
      subst h3
      exact List.mem_cons_self x xs
    · exact List.mem_cons_of_mem x (ih (k + 1) i a h)

/-- `place_into` preserves the invariant: both the updated container and
the placed object sit at the container's cell. -/
theorem place_into_pres (sim sim2 : Simulator) (tid : Nat)
    (hO : objectsOffWalls sim.world = true) (hA : agentOffWalls sim = true)
    (h : sim.place_into tid = .ok sim2) :
    objectsOffWalls sim2.world = true ∧ agentOffWalls sim2 = true := by
  simp only [Simulator.place_into] at h
  split at h
  · exact Except.noConfusion h
  · split at h
    · exact Except.noConfusion h
    · rename_i i container hfind
      split at h
      · exact Except.noConfusion h
      · split at h
        · exact Except.noConfusion h
        · split at h
          · exact Except.noConfusion h
          · rename_i obj hhold
            injection h with h1
            subst h1
            refine ⟨?_, hA⟩
            have hcmem : container ∈ sim.world.objects :=
              enumFrom_find?_mem Object _ sim.world.objects 0 i container hfind
            simp only [objectsOffWalls, List.all_eq_true] at hO ⊢
            intro o ho
            rcases List.mem_append.mp ho with h1 | h1
            · rcases List.mem_or_eq_of_mem_set h1 with h2 | h2
              · exact hO o h2
              · subst h2
                simpa using hO container hcmem
            · rw [List.mem_singleton] at h1
              subst h1
              simpa using hO container hcmem

/-- `interact` preserves the invariant in every success branch. -/
theorem interact_pres (sim sim2 : Simulator) (dx dy : Int)
    (hO : objectsOffWalls sim.world = true) (hA : agentOffWalls sim = true)
    (h : sim.interact dx dy = .ok sim2) :
    objectsOffWalls sim2.world = true ∧ agentOffWalls sim2 = true := by
  simp only [Simulator.interact] at h
  split at h
  · exact Except.noConfusion h
  · split at h
    · exact use_door_pres sim sim2 _ _ true hO hA h
    · split at h
      · exact use_door_pres sim sim2 _ _ false hO hA h
      · split at h
        · exact Except.noConfusion h
        · rename_i hd1 hd2 hneg
          split at h
          · -- empty-handed: pick up at the target
            split at h
            · split at h
              · rename_i pos hfind obj hget
                injection h with h1
                subst h1
                refine ⟨?_, hA⟩
                simp only [objectsOffWalls, List.all_eq_true] at hO ⊢
                intro o ho
                exact hO o (List.eraseIdx_subset _ _ ho)
              · exact Except.noConfusion h
            · exact Except.noConfusion h
          · -- holding: place into a container at the target or drop there
            rename_i obj hhold
            split at h
            · rename_i sim1 hplaced
              injection h with h1
              subst h1
              split at hplaced
              · rename_i container hfindc
                split at hplaced
                · rename_i sim3 hpi
                  injection hplaced with h2
                  subst h2
                  exact place_into_pres sim _ container.id hO hA hpi
                · exact Option.noConfusion hplaced
              · exact Option.noConfusion hplaced
            · rename_i hplaced
              injection h with h1
              subst h1
              refine ⟨?_, hA⟩
              simp only [objectsOffWalls, List.all_eq_true] at hO ⊢
              intro o ho
              rcases List.mem_append.mp ho with h1 | h1
              · exact hO o h1
              · rw [List.mem_singleton] at h1
                subst h1
                simpa [Layout.cellAt] using
                  notWallOutside_of_nonneg _ (Int.not_lt.mp hneg)

/-- A single `stepOp` preserves the invariant (errors keep the state). -/
theorem stepOp_pres (sim : Simulator) (op : Op)
    (hO : objectsOffWalls sim.world = true) (hA : agentOffWalls sim = true) :
    objectsOffWalls (stepOp sim op).world = true ∧
    agentOffWalls (stepOp sim op) = true := by
  cases op with
  | up =>
    rcases h : sim.up with e | s2
    · simp only [stepOp, h, Except.toOption, Option.getD]; exact ⟨hO, hA⟩
    · simp only [stepOp, h, Except.toOption, Option.getD]
      exact try_move_pres sim s2 0 (-1) hO h
  | down =>
    rcases h : sim.down with e | s2
    · simp only [stepOp, h, Except.toOption, Option.getD]; exact ⟨hO, hA⟩
    · simp only [stepOp, h, Except.toOption, Option.getD]
      exact try_move_pres sim s2 0 1 hO h
  | left =>
    rcases h : sim.left with e | s2
    · simp only [stepOp, h, Except.toOption, Option.getD]; exact ⟨hO, hA⟩
    · simp only [stepOp, h, Except.toOption, Option.getD]
      exact try_move_pres sim s2 (-1) 0 hO h
  | right =>
    rcases h : sim.right with e | s2
    · simp only [stepOp, h, Except.toOption, Option.getD]; exact ⟨hO, hA⟩
    · simp only [stepOp, h, Except.toOption, Option.getD]
      exact try_move_pres sim s2 1 0 hO h
  | interact dx dy =>
    rcases h : sim.interact dx dy with e | s2
    · simp only [stepOp, h, Except.toOption, Option.getD]; exact ⟨hO, hA⟩
    · simp only [stepOp, h, Except.toOption, Option.getD]
      exact interact_pres sim s2 dx dy hO hA h
  | pickUp =>
    rcases h : sim.pick_up with e | s2
    · simp only [stepOp, h, Except.toOption, Option.getD]; exact ⟨hO, hA⟩
    · simp only [stepOp, h, Except.toOption, Option.getD]
      exact pick_up_pres sim s2 hO hA h
  | dropHeld =>
    rcases h : sim.drop with e | s2
    · simp only [stepOp, h, Except.toOption, Option.getD]; exact ⟨hO, hA⟩
    · simp only [stepOp, h, Except.toOption, Option.getD]
      exact drop_pres sim s2 hO hA h
  | placeInto tid =>
    rcases h : sim.place_into tid with e | s2
    · simp only [stepOp, h, Except.toOption, Option.getD]; exact ⟨hO, hA⟩
    · simp only [stepOp, h, Except.toOption, Option.getD]
      exact place_into_pres sim s2 tid hO hA h

/-- Any operation sequence preserves the invariant. -/
theorem runOps_pres (ops : List Op) : ∀ (sim : Simulator),
    objectsOffWalls sim.world = true → agentOffWalls sim = true →
    objectsOffWalls (runOps sim ops).world = true ∧
    agentOffWalls (runOps sim ops) = true := by
  induction ops with
  | nil => intro sim hO hA; exact ⟨hO, hA⟩
  | cons op rest ih =>
    intro sim hO hA
    have h := stepOp_pres sim op hO hA
    simpa [runOps, List.foldl] using ih (stepOp sim op) h.1 h.2

/-- C1: two calls of `generate` with equal options return identical
worlds — the same width, height, cell buffer, and object list.  In this
embedding `generate` is a pure function of `opts` alone, faithfully so:
gen.rs draws every random value from `StdRng::seed_from_u64(opts.seed)`
(re-seeded per phase) and iterates only deterministically ordered
`BTreeMap`/`BTreeSet` collections, so no state outside `GenOpts` feeds
the result. -/
theorem C1_generate_deterministic : ∀ opts : GenOpts,
    generate opts = generate opts ∧
    (generate opts).layout.width = (generate opts).layout.width ∧
    (generate opts).layout.height = (generate opts).layout.height ∧
    (generate opts).layout.cells = (generate opts).layout.cells ∧
    (generate opts).objects = (generate opts).objects :=
  fun _ => ⟨rfl, rfl, rfl, rfl, rfl⟩

/-- C2 counterexample: in the world generated from
`seed 23, 12×10, max_rooms 6`, the room-and-door cells do **not** form a
single 4-connected component: room 1 has no doorway (its one adjacent
door cell (7, 5) opens into room 2's side only), so the room/door cells
split into two components. -/
theorem C2_connectivity_counterexample :
    singleComponentCoveringRooms (generate optsC2).layout = false := by
  rw [generate_layC2]
  decide

/-- C2 as amended: connectivity is not universal (see the counterexample,
where a spanning-tree doorway was carved into cells that the outer-wall
pass had already turned into walls, stranding a room); for worlds whose
doorways survive, such as `seed 1, 12×8`, the room-and-door cells do form
a single 4-connected component — which then contains a cell of each of
the three occurring room ids. -/
theorem C2_connectivity_amended :
    singleComponentCoveringRooms (generate optsC2g).layout = true ∧
    (occurringRoomIds (generate optsC2g).layout).length = 3 := by
  rw [generate_layC2g]
  exact ⟨by decide, by decide⟩

/-- C5 counterexample: in the world generated from `seed 0, 12×8`, room
id 0 occurs in the layout but labels only 12 cells — fewer than
`MIN_ROOM_AREA_CELLS = 24`. -/
theorem C5_room_area_counterexample :
    (occurringRoomIds (generate optsC5).layout).contains 0 = true ∧
    roomCellCount (generate optsC5).layout 0 = 12 ∧
    roomAreaFloorOk (generate optsC5).layout = false := by
  rw [generate_layC5]
  exact ⟨by decide, by decide, by decide⟩

/-- C6 counterexample: in the world generated from `seed 11, 12×9`, the
door cell at (4, 7) is isolated — its maximal horizontal and vertical
runs both have length 1, below `DOOR_MIN = 2` (the spanning-tree edge's
bucket held a single wall cell, and `carve_doors` clamps the drawn width
by `min` to the bucket size). -/
theorem C6_door_run_counterexample :
    doorAt (generate optsC6).layout 4 7 = true ∧
    hRunAt (generate optsC6).layout 4 7 = 1 ∧
    vRunAt (generate optsC6).layout 4 7 = 1 ∧
    doorRunsOk (generate optsC6).layout = false := by
  rw [generate_layC6]
  exact ⟨by decide, by decide, by decide, by decide⟩

/-- C3 counterexample: in the world generated from
`seed 1, 12×9, max_objects 12`, object 5 is a PetFoodBowl at (10, 1) —
placed by the random-parent branch of `place_objects` into the Nightstand
— whose registered placement constraint `InRoomNamed ["Kitchen",
"Dining Room"]` is false at (10, 1) (the cell lies in the "Bedroom")
against **every** object list, in particular against the world state at
the moment the object was appended. -/
theorem C3_placement_legality_counterexample :
    ((generate optsC37).objects.get? 5).map (fun o => (o.name, o.x, o.y)) =
      some ("PetFoodBowl", 10, 1) ∧
    schemaFor "PetFoodBowl" =
      some (mkSchema "PetFoodBowl" 10 true (.inRoomNamed ["Kitchen", "Dining Room"])
        (.inRoomNamed ["Kitchen", "Dining Room"]) "A bowl for pet food or water.") ∧
    (∀ objs : List Object,
      ObjectConstraint.check (.inRoomNamed ["Kitchen", "Dining Room"])
        ⟨(generate optsC37).layout, objs⟩ 10 1 = false) := by
  refine ⟨?_, rfl, fun objs => ?_⟩
  · rw [generate_worldC37]
    decide
  · rw [generate_layC37]
    rfl

/-- C7 counterexample: starting the simulator on the generated world of
`seed 1, 12×9, max_objects 12` at (10, 1) and running `opsC7` — pick up
the Whisk, walk to the doorway, open it, step onto the open door cell
(2, 4), drop — leaves the Whisk on a cell whose value is
`OPEN_DOOR = -4 < 0`: `Simulator::drop` never checks the agent's cell. -/
theorem C7_objects_on_rooms_counterexample :
    (runFromStart (generate optsC37) 10 1 opsC7).map objectsOnRoomCells =
      some false ∧
    (runFromStart (generate optsC37) 10 1 opsC7).map (fun w =>
      (w.objects.getLast?).map (fun o => (o.name, o.x, o.y, w.layout.cellAt o.x o.y))) =
      some (some ("Whisk", 2, 4, OPEN_DOOR)) := by
  rw [generate_worldC37]
  exact ⟨by decide, by decide⟩

/-- C4 (code bug): a successful `pick_up` removes the object from
`world.objects` and sets `holding`, but leaves the picked object's id in
the container's `contents` — here the Drawer still lists the held
Spatula's id 1, violating the held-object invariant the claim states.
This state shape (a container with a contained pickable object at its
cell) is exactly what `place_objects` produces for `InsideOf`
placements. -/
theorem C4_pickup_keeps_contents_reference :
    (simC4.pick_up).map (fun s => (s.holding, s.world.objects)) =
      .ok (some spatulaC4, [drawerC4]) ∧
    drawerC4.contents = [1] :=
  ⟨rfl, rfl⟩

/-- C10 (code bug): `use_door` bounds-checks only its entry coordinate;
the flood fill pushes neighbours unchecked.  Invoked at (0, 0) of a 2×2
all-`OUTSIDE` world it recolors (0, 0) and (0, 1), then pops the pushed
neighbour (0, 2) and computes index `2 * 2 + 0 = 4` into the 4-cell
buffer — the `Vec` index panics (modelled as the error below). -/
theorem C10_use_door_out_of_bounds :
    simC10.use_door 0 0 true = .error "panic: index out of bounds" :=
  rfl

/-- C3 as amended: what `place_objects` actually guarantees per step.
Floor placement either places nothing or appends one object at a free
cell satisfying the schema's placement constraint against the object
list at the moment of the draw; container placement (both the `InsideOf`
arm and the coin-flip random-parent arm, the latter with **no**
constraint check — whence the counterexample) appends the child at the
parent's coordinates and records its id in the parent's `contents`. -/
theorem C3_placement_amended (σ : Type) (nxt : σ → Nat × σ) (layout : Layout)
    (freeCells : List (Nat × Nat)) (schema : ObjectSchema)
    (objects : List Object) (id : Nat) (s : σ) (pi : Nat) (parent : Object)
    (hp : objects.get? pi = some parent) :
    ((floorPlace nxt layout freeCells schema objects id s).1 = objects ∨
      ∃ c, c ∈ freeCells ∧
        schema.constraint.check { layout := layout, objects := objects }
          c.1 c.2 = true ∧
        (floorPlace nxt layout freeCells schema objects id s).1 =
          objects ++ [mkObject schema id c.1 c.2]) ∧
    intoParent schema objects pi id =
      (objects.set pi { parent with contents := parent.contents ++ [id] }) ++
        [mkObject schema id parent.x parent.y] :=
  ⟨floorPlace_cases σ nxt layout freeCells schema objects id s,
   intoParent_eq schema objects pi id parent hp⟩

/-- C3 witness: the amended placement properties at a concrete layout,
schema and parent. -/
theorem C3_placement_amended_witness :
    ((floorPlace smNext layC4 [(1, 1)] rugSchema [drawerC4] 7 0).1 =
        [drawerC4] ∨
      ∃ c, c ∈ [(1, 1)] ∧
        rugSchema.constraint.check
          { layout := layC4, objects := [drawerC4] } c.1 c.2 = true ∧
        (floorPlace smNext layC4 [(1, 1)] rugSchema [drawerC4] 7 0).1 =
          [drawerC4] ++ [mkObject rugSchema 7 c.1 c.2]) ∧
    intoParent rugSchema [drawerC4] 0 7 =
      ([drawerC4].set 0
        { drawerC4 with contents := drawerC4.contents ++ [7] }) ++
        [mkObject rugSchema 7 drawerC4.x drawerC4.y] :=
  C3_placement_amended Nat smNext layC4 [(1, 1)] rugSchema [drawerC4] 7 0 0
    drawerC4 rfl

/-- C5 as amended: the generator does not guarantee 24 cells per room
(see the counterexample); what the split-acceptance test does guarantee
is relative, not absolute — every candidate the BSP may choose leaves
each of the two child masks at least a fifth of the parent region's
area. -/
theorem C5_split_share_amended (σ : Type) (nxt : σ → Nat × σ) (r : Region)
    (W H : Nat) (s : σ) :
    (∀ x ∈ (vCandidates nxt r W H s).1,
      splitMasks r (W * H) W true x =
        (sideMaskLt r.mask (W * H) W x, sideMaskGt r.mask (W * H) W x) ∧
      5 * popCnt (W * H) (sideMaskLt r.mask (W * H) W x) ≥ r.area ∧
      5 * popCnt (W * H) (sideMaskGt r.mask (W * H) W x) ≥ r.area) ∧
    (∀ y ∈ (hCandidates nxt r W H s).1,
      splitMasks r (W * H) W false y =
        (sideMaskUp r.mask (W * H) W y, sideMaskDn r.mask (W * H) W y) ∧
      5 * popCnt (W * H) (sideMaskUp r.mask (W * H) W y) ≥ r.area ∧
      5 * popCnt (W * H) (sideMaskDn r.mask (W * H) W y) ≥ r.area) := by
  constructor
  · intro x hx
    have hok : vSplitOk r W H x = true := by
      simp only [vCandidates] at hx
      exact (List.mem_filter.mp hx).2
    simp only [vSplitOk, Bool.and_eq_true, decide_eq_true_eq] at hok
    exact ⟨by simp [splitMasks], hok.1.1.1.2, hok.1.1.2⟩
  · intro y hy
    have hok : hSplitOk r W H y = true := by
      simp only [hCandidates] at hy
      exact (List.mem_filter.mp hy).2
    simp only [hSplitOk, Bool.and_eq_true, decide_eq_true_eq] at hok
    exact ⟨by simp [splitMasks], hok.1.1.1.2, hok.1.1.2⟩

set_option maxHeartbeats 4000000 in
/-- C5 witness: the split-share guarantee at the full 12×8 region and
its vertical candidate column 6. -/
theorem C5_split_share_amended_witness :
    splitMasks rFull96 (12 * 8) 12 true 6 =
      (sideMaskLt rFull96.mask (12 * 8) 12 6,
       sideMaskGt rFull96.mask (12 * 8) 12 6) ∧
    5 * popCnt (12 * 8) (sideMaskLt rFull96.mask (12 * 8) 12 6) ≥
      rFull96.area ∧
    5 * popCnt (12 * 8) (sideMaskGt rFull96.mask (12 * 8) 12 6) ≥
      rFull96.area :=
  (C5_split_share_amended Nat smNext rFull96 12 8 0).1 6 (by decide)

/-- A `drop`-then-`take` slice: length bounds used by `carveEdge`. -/
theorem carve_slice_length (S : List Nat) (wr start : Nat)
    (hS : S.length ≠ 0) (hw2 : 2 ≤ wr)
    (hstart : start ≤ S.length - min wr S.length) :
    1 ≤ ((S.drop start).take (min wr S.length)).length ∧
    ((S.drop start).take (min wr S.length)).length ≤ min wr S.length ∧
    (2 ≤ S.length → 2 ≤ ((S.drop start).take (min wr S.length)).length) := by
  simp only [List.length_take, List.length_drop]
  omega

/-- C6 as amended: a doorway is not always 2–4 cells wide (the
counterexample's bucket held one cell); what `carve_doors` does
guarantee per spanning-tree edge is that the carved slice has between
`min 2 bucket` and 4 cells — at least 1 on a nonempty bucket, at least 2
whenever the bucket has 2 or more wall cells, never more than 4. -/
theorem C6_carve_width_amended (σ : Type) (nxt : σ → Nat × σ)
    (bucket : List Nat) (W : Nat) (s : σ) (hne : bucket ≠ []) :
    1 ≤ (carveEdge nxt bucket W s).1.length ∧
    (carveEdge nxt bucket W s).1.length ≤ 4 ∧
    (2 ≤ bucket.length → 2 ≤ (carveEdge nxt bucket W s).1.length) := by
  have hbl : bucket.length ≠ 0 := fun hz => hne (List.length_eq_zero.mp hz)
  obtain ⟨hw2, hw4⟩ := genRange_fst_le σ nxt 2 4 s (by omega)
  simp only [carveEdge]
  split
  · have hL := sortByB_length Nat (fun a b => Nat.ble (a / W) (b / W)) bucket
    have hsle := (genRange_fst_le σ nxt 0
      ((sortByB (fun a b => Nat.ble (a / W) (b / W)) bucket).length -
        min (genRange nxt 2 4 s).1
          (sortByB (fun a b => Nat.ble (a / W) (b / W)) bucket).length)
      (genRange nxt 2 4 s).2 (Nat.zero_le _)).2
    simp only [List.length_take, List.length_drop]
    refine ⟨by omega, by omega, fun h2 => by omega⟩
  · have hL := sortByB_length Nat (fun a b => Nat.ble (a % W) (b % W)) bucket
    have hsle := (genRange_fst_le σ nxt 0
      ((sortByB (fun a b => Nat.ble (a % W) (b % W)) bucket).length -
        min (genRange nxt 2 4 s).1
          (sortByB (fun a b => Nat.ble (a % W) (b % W)) bucket).length)
      (genRange nxt 2 4 s).2 (Nat.zero_le _)).2
    simp only [List.length_take, List.length_drop]
    refine ⟨by omega, by omega, fun h2 => by omega⟩

/-- C6 witness: the carved-slice bounds at a concrete two-cell bucket. -/
theorem C6_carve_width_amended_witness :
    1 ≤ (carveEdge smNext [5, 17] 12 0).1.length ∧
    (carveEdge smNext [5, 17] 12 0).1.length ≤ 4 ∧
    (2 ≤ ([5, 17] : List Nat).length →
      2 ≤ (carveEdge smNext [5, 17] 12 0).1.length) :=
  C6_carve_width_amended Nat smNext [5, 17] 12 0 (by decide)

/-- C7 as amended: objects can land on open-door cells (see the
counterexample), but never on walls or outside cells — on any generated
world, from any legal start, after any operation sequence, every object
sits on a cell that is neither `WALL` nor `OUTSIDE`.  The generator
places only on room cells; every simulator mutation either keeps
positions, copies a container's position, or drops at the agent's or an
interaction target's cell, all of which satisfy the invariant; the flood
fill rewrites cells only to door values. -/
theorem C7_objects_off_walls_amended (opts : GenOpts) (sx sy : Nat)
    (sim : Simulator) (ops : List Op)
    (h : Simulator.new (generate opts) sx sy = .ok sim) :
    objectsOffWalls (runOps sim ops).world = true := by
  simp only [Simulator.new] at h
  split at h
  · exact Except.noConfusion h
  · split at h
    · exact Except.noConfusion h
    · split at h
      · exact Except.noConfusion h
      · rename_i hlen hbnd hnav
        injection h with h1
        subst h1
        have hO : objectsOffWalls (generate opts) = true := by
          simp only [generate, objectsOffWalls, List.all_eq_true]
          intro o ho
          exact notWallOutside_of_nonneg _
            (place_objects_onRoom (genLayout opts) default_schemas opts.seed
              opts.max_objects o ho)
        have hA : agentOffWalls
            { world := generate opts, agent := { x := sx, y := sy },
              holding := none } = true := by
          simp only [agentOffWalls]
          exact notWallOutside_of_nonneg _ (Int.not_lt.mp hnav)
        exact (runOps_pres ops
          { world := generate opts, agent := { x := sx, y := sy },
            holding := none } hO hA).1

/-- C7 witness: the invariant after running the counterexample's own
operation sequence from the generated world of `optsC37`. -/
theorem C7_objects_off_walls_amended_witness :
    objectsOffWalls (runOps simStart37 opsC7).world = true :=
  C7_objects_off_walls_amended optsC37 10 1 simStart37 opsC7
    (by rw [generate_worldC37]; rfl)

/-- C8: the error semantics of `place_into`, as the spec states them
(the source matches on a nonexistent `container.typ`; the capacity test
is modelled from the spec's container glossary and §7 error taxonomy):
`NotHolding` when empty-handed, `InvalidTarget` when no object has the
id or the object has capacity 0, `ContainerFull` when the container's
contents have reached its capacity, else success: the container records
the held object's id, the object moves to the container's cell, and the
hands empty. -/
theorem C8_place_into_spec (sim : Simulator) (tid : Nat) :
    (sim.holding = none → sim.place_into tid = .error .notHolding) ∧
    (∀ obj, sim.holding = some obj →
      (sim.world.objects.enum.find? (fun p => p.2.id == tid) = none →
        sim.place_into tid = .error .invalidTarget) ∧
      (∀ i container,
        sim.world.objects.enum.find? (fun p => p.2.id == tid) =
          some (i, container) →
        (container.capacity = 0 →
          sim.place_into tid = .error .invalidTarget) ∧
        (container.capacity ≠ 0 →
          container.contents.length ≥ container.capacity →
          sim.place_into tid = .error .containerFull) ∧
        (container.capacity ≠ 0 →
          container.contents.length < container.capacity →
          sim.place_into tid = .ok
            { sim with
              world := { sim.world with objects :=
                (sim.world.objects.set i
                  { container with
                      contents := container.contents ++ [obj.id] }) ++
                [{ obj with x := container.x, y := container.y }] },
              holding := none }))) := by
  refine ⟨fun h => ?_, fun obj hobj =>
    ⟨fun hf => ?_, fun i container hf =>
      ⟨fun hc0 => ?_, fun hc0 hge => ?_, fun hc0 hlt => ?_⟩⟩⟩
  · simp [Simulator.place_into, h]
  · simp [Simulator.place_into, hobj, hf]
  · simp [Simulator.place_into, hobj, hf, hc0]
  · simp [Simulator.place_into, hobj, hf, hc0, hge]
  · simp [Simulator.place_into, hobj, hf, hc0, Nat.not_le.mpr hlt]

/-- C8 witness: placing the held Apple into the TrashCan. -/
theorem C8_place_into_witness :
    simC8.place_into 0 = .ok
      { simC8 with
        world := { simC8.world with objects :=
          (simC8.world.objects.set 0
            { trashCanC8 with
                contents := trashCanC8.contents ++ [appleC8.id] }) ++
          [{ appleC8 with x := trashCanC8.x, y := trashCanC8.y }] },
        holding := none } :=
  ((((C8_place_into_spec simC8 0).2 appleC8 rfl).2 0 trashCanC8 rfl).2.2)
    (by decide) (by decide)

/-- C8 counterexample: `place_into` reports `ContainerFull` for any
contents length `≥` the capacity, not "exactly when equal" as the claim
reads — the Jar holds two ids against capacity 1, its length differs
from its capacity, and the call still fails with `ContainerFull`. -/
theorem C8_container_full_counterexample :
    simC8b.place_into 0 = .error .containerFull ∧
    jarC8.contents.length ≠ jarC8.capacity :=
  ⟨rfl, by decide⟩

end TidyEnv
